import Mathlib

/-!
Shallow embedding of the sparql-grammar-pydantic AST library
(src/sparql_grammar_pydantic/grammar.py and terminals.py).

Conventions used throughout this development:

* Every pydantic model class of the source becomes a Lean structure, or a
  single-constructor inductive when it takes part in a recursive knot.
  Field names and declaration order follow the source.
* Python `X | Y` union annotations become `Sum` types (or a dedicated
  content inductive for wide unions), `Optional[X]` becomes `Option X`,
  `List[X]` becomes `List X`, `Tuple[...]` becomes products.
* `render` in the source is a generator of text fragments that callers
  consume by string concatenation (`"".join` in `__str__`).  We model a
  render as `Except PyErr String`: the concatenation of the yielded
  fragments, or the first exception raised while the generator runs or
  while the consumer joins a non-string fragment.
* Exceptions that the Python code can raise are modelled by the `PyErr`
  type below.  `raise` of a value that is not a `BaseException` (the body
  of `Terminal.render` is `raise self.value` with a `str` value) is a
  `TypeError` in Python 3 and is modelled as such.
-/

namespace SG

/-- Embeds the Python exceptions that the translated code can raise:
`TypeError`, `ValueError` (which pydantic wraps into its
`ValidationError`), `AttributeError`, `NotImplementedError`,
`AssertionError` and the `RuntimeError` produced when a `StopIteration`
escapes a generator (PEP 479). -/
inductive PyErr where
  | typeError (msg : String)
  | valueError (msg : String)
  | attributeError (name : String)
  | notImplementedError
  | assertionError (msg : String)
  | runtimeError (msg : String)
  deriving DecidableEq, Repr

/-- Result of consuming a render generator: the concatenated fragments or
the first raised exception. -/
abbrev RenderResult := Except PyErr String

/-- One literal yielded fragment. -/
def lit (s : String) : RenderResult := .ok s

/-- Sequencing of two rendered pieces: the generator runs left to right,
so an exception on the left hides everything on the right. -/
def rcat : RenderResult → RenderResult → RenderResult
  | .error e, _ => .error e
  | .ok _, .error e => .error e
  | .ok a, .ok b => .ok (a ++ b)

/-- Sequencing of a whole list of rendered pieces. -/
def rcats : List RenderResult → RenderResult
  | [] => .ok ""
  | r :: rs => rcat r (rcats rs)

/-- Embeds `len` applied to an `Optional[List[...]]` field: `len(None)`
raises `TypeError: object of type NoneType has no len()`. -/
def pyLen {α : Type} : Option (List α) → Except PyErr Nat
  | none => .error (.typeError "object of type NoneType has no len")
  | some l => .ok l.length

/-- Embeds `list(set(xs))` as used by `collect_triples` for its final
deduplication.  A Python `set` keeps one representative of every
`__eq__`-equivalence class; the list order of `list(set(...))` is
unspecified, so only the multiplicity content of the result is meaningful.
We keep the first occurrence of every element. -/
def pydedup {α : Type} [BEq α] : List α → List α
  | [] => []
  | a :: as => a :: pydedup (as.filter (fun b => !(a == b)))
termination_by l => l.length
decreasing_by
  simp only [List.length_cons]
  exact Nat.lt_succ_of_le (List.length_filter_le _ _)

/-!
Terminal layer, from terminals.py.  Every terminal class wraps a raw
string already validated by the lexical layer (`value`).  The base class
method is

    def render(self):
        raise self.value

which `raise`s a `str`; in Python 3 raising a non-`BaseException` raises
`TypeError: exceptions must derive from BaseException`.  Subclasses that
do not override `render` (PNAME_NS, PNAME_LN, INTEGER, DECIMAL, DOUBLE,
...) therefore fail on every call.
-/

/-- Embeds the body of `Terminal.render` (terminals.py lines 30-31):
`raise self.value` raises `TypeError` because a `str` is not a
`BaseException`. -/
def Terminal.baseRender : RenderResult :=
  .error (.typeError "exceptions must derive from BaseException")

/-- Embeds terminal class IRIREF. -/
structure IRIREF where
  value : String
  deriving DecidableEq, Repr

/-- Embeds `IRIREF.render`: yields `<`, the raw value, `>`. -/
def IRIREF.render (t : IRIREF) : RenderResult :=
  rcats [lit "<", lit t.value, lit ">"]

/-- Embeds terminal class PNAME_NS, which does not override `render`. -/
structure PNAME_NS where
  value : String
  deriving DecidableEq, Repr

/-- PNAME_NS inherits `Terminal.render`, whose body is `raise self.value`. -/
def PNAME_NS.render (_ : PNAME_NS) : RenderResult := Terminal.baseRender

/-- Embeds terminal class PNAME_LN, which does not override `render`. -/
structure PNAME_LN where
  value : String
  deriving DecidableEq, Repr

/-- PNAME_LN inherits `Terminal.render`. -/
def PNAME_LN.render (_ : PNAME_LN) : RenderResult := Terminal.baseRender

/-- Embeds terminal class VAR1. -/
structure VAR1 where
  value : String
  deriving DecidableEq, Repr

/-- Embeds `VAR1.render`: yields `?` then the raw value. -/
def VAR1.render (t : VAR1) : RenderResult := rcats [lit "?", lit t.value]

/-- Embeds terminal class VAR2. -/
structure VAR2 where
  value : String
  deriving DecidableEq, Repr

/-- Embeds `VAR2.render`: yields `$` then the raw value. -/
def VAR2.render (t : VAR2) : RenderResult := rcats [lit "$", lit t.value]

/-- Embeds terminal class LANGTAG. -/
structure LANGTAG where
  value : String
  deriving DecidableEq, Repr

/-- Embeds `LANGTAG.render`: yields `@` then the raw value. -/
def LANGTAG.render (t : LANGTAG) : RenderResult := rcats [lit "@", lit t.value]

/-- Embeds terminal class INTEGER, which does not override `render`. -/
structure INTEGER where
  value : String
  deriving DecidableEq, Repr

/-- INTEGER inherits `Terminal.render`. -/
def INTEGER.render (_ : INTEGER) : RenderResult := Terminal.baseRender

/-- Embeds terminal class DECIMAL, which does not override `render`. -/
structure DECIMAL where
  value : String
  deriving DecidableEq, Repr

/-- DECIMAL inherits `Terminal.render`. -/
def DECIMAL.render (_ : DECIMAL) : RenderResult := Terminal.baseRender

/-- Embeds terminal class DOUBLE, which does not override `render`. -/
structure DOUBLE where
  value : String
  deriving DecidableEq, Repr

/-- DOUBLE inherits `Terminal.render`. -/
def DOUBLE.render (_ : DOUBLE) : RenderResult := Terminal.baseRender

/-- Embeds terminal class INTEGER_POSITIVE. -/
structure INTEGER_POSITIVE where
  value : String
  deriving DecidableEq, Repr

/-- Embeds `INTEGER_POSITIVE.render`: `+` then the raw value. -/
def INTEGER_POSITIVE.render (t : INTEGER_POSITIVE) : RenderResult :=
  rcats [lit "+", lit t.value]

/-- Embeds terminal class DECIMAL_POSITIVE. -/
structure DECIMAL_POSITIVE where
  value : String
  deriving DecidableEq, Repr

/-- Embeds `DECIMAL_POSITIVE.render`: `+` then the raw value. -/
def DECIMAL_POSITIVE.render (t : DECIMAL_POSITIVE) : RenderResult :=
  rcats [lit "+", lit t.value]

/-- Embeds terminal class DOUBLE_POSITIVE. -/
structure DOUBLE_POSITIVE where
  value : String
  deriving DecidableEq, Repr

/-- Embeds `DOUBLE_POSITIVE.render`: `+` then the raw value. -/
def DOUBLE_POSITIVE.render (t : DOUBLE_POSITIVE) : RenderResult :=
  rcats [lit "+", lit t.value]

/-- Embeds terminal class INTEGER_NEGATIVE. -/
structure INTEGER_NEGATIVE where
  value : String
  deriving DecidableEq, Repr

/-- Embeds `INTEGER_NEGATIVE.render`: `-` then the raw value. -/
def INTEGER_NEGATIVE.render (t : INTEGER_NEGATIVE) : RenderResult :=
  rcats [lit "-", lit t.value]

/-- Embeds terminal class DECIMAL_NEGATIVE. -/
structure DECIMAL_NEGATIVE where
  value : String
  deriving DecidableEq, Repr

/-- Embeds `DECIMAL_NEGATIVE.render`: `-` then the raw value. -/
def DECIMAL_NEGATIVE.render (t : DECIMAL_NEGATIVE) : RenderResult :=
  rcats [lit "-", lit t.value]

/-- Embeds terminal class DOUBLE_NEGATIVE. -/
structure DOUBLE_NEGATIVE where
  value : String
  deriving DecidableEq, Repr

/-- Embeds `DOUBLE_NEGATIVE.render`: `-` then the raw value. -/
def DOUBLE_NEGATIVE.render (t : DOUBLE_NEGATIVE) : RenderResult :=
  rcats [lit "-", lit t.value]

/-- Embeds terminal class STRING_LITERAL1 (single-quoted literal). -/
structure STRING_LITERAL1 where
  value : String
  deriving DecidableEq, Repr

/-- Embeds `STRING_LITERAL1.render`: the value wrapped in single quotes. -/
def STRING_LITERAL1.render (t : STRING_LITERAL1) : RenderResult :=
  rcats [lit "\x27", lit t.value, lit "\x27"]

/-- Embeds terminal class STRING_LITERAL2 (double-quoted literal). -/
structure STRING_LITERAL2 where
  value : String
  deriving DecidableEq, Repr

/-- Embeds `STRING_LITERAL2.render`: the value wrapped in double quotes. -/
def STRING_LITERAL2.render (t : STRING_LITERAL2) : RenderResult :=
  rcats [lit "\"", lit t.value, lit "\""]

/-- Embeds terminal class STRING_LITERAL_LONG1. -/
structure STRING_LITERAL_LONG1 where
  value : String
  deriving DecidableEq, Repr

/-- Embeds `STRING_LITERAL_LONG1.render`: triple single quotes around the
value. -/
def STRING_LITERAL_LONG1.render (t : STRING_LITERAL_LONG1) : RenderResult :=
  rcats [lit "\x27\x27\x27", lit t.value, lit "\x27\x27\x27"]

/-- Embeds terminal class STRING_LITERAL_LONG2. -/
structure STRING_LITERAL_LONG2 where
  value : String
  deriving DecidableEq, Repr

/-- Embeds `STRING_LITERAL_LONG2.render`: triple double quotes around the
value. -/
def STRING_LITERAL_LONG2.render (t : STRING_LITERAL_LONG2) : RenderResult :=
  rcats [lit "\"\"\"", lit t.value, lit "\"\"\""]

/-- Embeds terminal class BlankNodeLabel. -/
structure BlankNodeLabel where
  value : String
  deriving DecidableEq, Repr

/-- Embeds `BlankNodeLabel.render`: `_:` then the raw value. -/
def BlankNodeLabel.render (t : BlankNodeLabel) : RenderResult :=
  rcats [lit "_:", lit t.value]

/-- Embeds terminal class NIL. -/
structure NIL where
  value : String
  deriving DecidableEq, Repr

/-- Embeds `NIL.render`: the value wrapped in parentheses. -/
def NIL.render (t : NIL) : RenderResult :=
  rcats [lit "(", lit t.value, lit ")"]

/-- Embeds class Anon of terminals.py.  Anon subclasses nothing, declares
no field at all, and its `render` reads `self.value`, which does not
exist; calling it raises `AttributeError`. -/
structure Anon where
  deriving DecidableEq, Repr

/-- Embeds `Anon.render`: reading the missing `self.value` raises
`AttributeError`. -/
def Anon.render (_ : Anon) : RenderResult := .error (.attributeError "value")

/-!
Closed enumerations of grammar.py.
-/

/-- Embeds enum VerbRDFType (`A = "a"`). -/
inductive VerbRDFType where
  | A
  deriving DecidableEq, Repr

/-- Value string of a VerbRDFType member. -/
def VerbRDFType.val : VerbRDFType → String
  | .A => "a"

/-- Embeds enum Wildcard (`WILDCARD = "*"`). -/
inductive Wildcard where
  | WILDCARD
  deriving DecidableEq, Repr

/-- Value string of a Wildcard member. -/
def Wildcard.val : Wildcard → String
  | .WILDCARD => "*"

/-- Embeds enum UndefEnum (`UNDEF = "UNDEF"`). -/
inductive UndefEnum where
  | UNDEF
  deriving DecidableEq, Repr

/-- Embeds enum BoolOptions. -/
inductive BoolOptions where
  | TRUE
  | FALSE
  deriving DecidableEq, Repr

/-- Value string of a BoolOptions member. -/
def BoolOptions.val : BoolOptions → String
  | .TRUE => "true"
  | .FALSE => "false"

/-- Embeds enum DistinctReduced. -/
inductive DistinctReduced where
  | DISTINCT
  | REDUCED
  deriving DecidableEq, Repr

/-- Value string of a DistinctReduced member. -/
def DistinctReduced.val : DistinctReduced → String
  | .DISTINCT => "DISTINCT"
  | .REDUCED => "REDUCED"

/-- Embeds enum AggregateOptions. -/
inductive AggregateOptions where
  | COUNT
  | SUM
  | MIN
  | MAX
  | AVG
  | SAMPLE
  | GROUP_CONCAT
  deriving DecidableEq, Repr

/-- Value string of an AggregateOptions member. -/
def AggregateOptions.val : AggregateOptions → String
  | .COUNT => "COUNT"
  | .SUM => "SUM"
  | .MIN => "MIN"
  | .MAX => "MAX"
  | .AVG => "AVG"
  | .SAMPLE => "SAMPLE"
  | .GROUP_CONCAT => "GROUP_CONCAT"

/-- Embeds `str()` of an AggregateOptions member, as produced by the
f-string `f"{self.function_name}("` in `Aggregate.render`: `str` of a
Python enum member is `ClassName.MEMBER`, not its value. -/
def AggregateOptions.pyStr (o : AggregateOptions) : String :=
  "AggregateOptions." ++ o.val

/-- Embeds enum MultiplacativeOperator (name as spelt in the source). -/
inductive MultiplacativeOperator where
  | MULTIPLY
  | DIVIDE
  deriving DecidableEq, Repr

/-- Value string of a MultiplacativeOperator member. -/
def MultiplacativeOperator.val : MultiplacativeOperator → String
  | .MULTIPLY => "*"
  | .DIVIDE => "/"

/-- Embeds enum MultiplyDivideOperators. -/
inductive MultiplyDivideOperators where
  | MULTIPLY
  | DIVIDE
  deriving DecidableEq, Repr

/-- Value string of a MultiplyDivideOperators member. -/
def MultiplyDivideOperators.val : MultiplyDivideOperators → String
  | .MULTIPLY => "*"
  | .DIVIDE => "/"

/-- Embeds enum UnaryOperator. -/
inductive UnaryOperator where
  | NOT
  | PLUS
  | MINUS
  deriving DecidableEq, Repr

/-- Value string of a UnaryOperator member. -/
def UnaryOperator.val : UnaryOperator → String
  | .NOT => "!"
  | .PLUS => "+"
  | .MINUS => "-"

/-- Embeds enum BuiltInCallOptions. -/
inductive BuiltInCallOptions where
  | STR
  | LANG
  | LANGMATCHES
  | DATATYPE
  | BOUND
  | IRI
  | URI
  | BNODE
  | RAND
  | ABS
  | CEIL
  | FLOOR
  | ROUND
  | CONCAT
  | STRLEN
  | UCASE
  | LCASE
  | ENCODE_FOR_URI
  | CONTAINS
  | STRSTARTS
  | STRENDS
  | STRBEFORE
  | STRAFTER
  | YEAR
  | MONTH
  | DAY
  | HOURS
  | MINUTES
  | SECONDS
  | TIMEZONE
  | TZ
  | NOW
  | UUID
  | STRUUID
  | MD5
  | SHA1
  | SHA256
  | SHA384
  | SHA512
  | COALESCE
  | IF
  | STRLANG
  | STRDT
  | SAMETERM
  | ISIRI
  | ISURI
  | ISBLANK
  | ISLITERAL
  | ISNUMERIC
  deriving DecidableEq, Repr

/-- Value string of a BuiltInCallOptions member. -/
def BuiltInCallOptions.val : BuiltInCallOptions → String
  | .STR => "STR"
  | .LANG => "LANG"
  | .LANGMATCHES => "LANGMATCHES"
  | .DATATYPE => "DATATYPE"
  | .BOUND => "BOUND"
  | .IRI => "IRI"
  | .URI => "URI"
  | .BNODE => "BNODE"
  | .RAND => "RAND"
  | .ABS => "ABS"
  | .CEIL => "CEIL"
  | .FLOOR => "FLOOR"
  | .ROUND => "ROUND"
  | .CONCAT => "CONCAT"
  | .STRLEN => "STRLEN"
  | .UCASE => "UCASE"
  | .LCASE => "LCASE"
  | .ENCODE_FOR_URI => "ENCODE_FOR_URI"
  | .CONTAINS => "CONTAINS"
  | .STRSTARTS => "STRSTARTS"
  | .STRENDS => "STRENDS"
  | .STRBEFORE => "STRBEFORE"
  | .STRAFTER => "STRAFTER"
  | .YEAR => "YEAR"
  | .MONTH => "MONTH"
  | .DAY => "DAY"
  | .HOURS => "HOURS"
  | .MINUTES => "MINUTES"
  | .SECONDS => "SECONDS"
  | .TIMEZONE => "TIMEZONE"
  | .TZ => "TZ"
  | .NOW => "NOW"
  | .UUID => "UUID"
  | .STRUUID => "STRUUID"
  | .MD5 => "MD5"
  | .SHA1 => "SHA1"
  | .SHA256 => "SHA256"
  | .SHA384 => "SHA384"
  | .SHA512 => "SHA512"
  | .COALESCE => "COALESCE"
  | .IF => "IF"
  | .STRLANG => "STRLANG"
  | .STRDT => "STRDT"
  | .SAMETERM => "sameTerm"
  | .ISIRI => "isIRI"
  | .ISURI => "isURI"
  | .ISBLANK => "isBLANK"
  | .ISLITERAL => "isLITERAL"
  | .ISNUMERIC => "isNUMERIC"

/-!
Non-recursive node classes of grammar.py: variables, IRIs, literals.
-/

/-- Embeds class PrefixedName: `value: PNAME_LN | PNAME_NS`. -/
structure PrefixedName where
  value : Sum PNAME_LN PNAME_NS
  deriving DecidableEq, Repr

/-- Embeds `PrefixedName.render`: delegates to the terminal render, which
is the non-overridden `Terminal.render` for both PNAME_LN and PNAME_NS. -/
def PrefixedName.render (p : PrefixedName) : RenderResult :=
  match p.value with
  | .inl t => t.render
  | .inr t => t.render

/-- Embeds class iri: `value: IRIREF | PrefixedName`. -/
structure iri where
  value : Sum IRIREF PrefixedName
  deriving DecidableEq, Repr

/-- Embeds `iri.render`: delegates to the wrapped value. -/
def iri.render (i : iri) : RenderResult :=
  match i.value with
  | .inl t => t.render
  | .inr p => p.render

/-- Embeds class BlankNode: `value: BlankNodeLabel | Anon`.  Note the
source render yields a trailing space after the wrapped value. -/
structure BlankNode where
  value : Sum BlankNodeLabel Anon
  deriving DecidableEq, Repr

/-- Embeds `BlankNode.render`: the wrapped render then a space. -/
def BlankNode.render (b : BlankNode) : RenderResult :=
  match b.value with
  | .inl t => rcats [t.render, lit " "]
  | .inr a => rcats [a.render, lit " "]

/-- Embeds class Var: `value: VAR1 | VAR2`. -/
structure Var where
  value : Sum VAR1 VAR2
  deriving DecidableEq, Repr

/-- Embeds `Var.render`: delegates to the wrapped terminal. -/
def Var.render (v : Var) : RenderResult :=
  match v.value with
  | .inl t => t.render
  | .inr t => t.render

/-- Embeds class String of grammar.py (named SG_String here because the
source name collides with the Lean built-in):
`value: STRING_LITERAL1 | STRING_LITERAL2 | STRING_LITERAL_LONG1 |
STRING_LITERAL_LONG2`. -/
inductive SG_String where
  | lit1 (value : STRING_LITERAL1)
  | lit2 (value : STRING_LITERAL2)
  | long1 (value : STRING_LITERAL_LONG1)
  | long2 (value : STRING_LITERAL_LONG2)
  deriving DecidableEq, Repr

/-- Embeds `String.render` of grammar.py: delegates to the wrapped
terminal. -/
def SG_String.render : SG_String → RenderResult
  | .lit1 t => t.render
  | .lit2 t => t.render
  | .long1 t => t.render
  | .long2 t => t.render

/-- Embeds class RDFLiteral: value, optional langtag, optional datatype. -/
structure RDFLiteral where
  value : SG_String
  langtag : Option LANGTAG := none
  datatype : Option iri := none
  deriving DecidableEq, Repr

/-- Embeds `RDFLiteral.render`: the value, then the langtag if present,
otherwise `^^` and the datatype if present. -/
def RDFLiteral.render (r : RDFLiteral) : RenderResult :=
  rcat r.value.render
    (match r.langtag, r.datatype with
      | some l, _ => l.render
      | none, some d => rcat (lit "^^") d.render
      | none, none => .ok "")

/-- Embeds class NumericLiteralUnsigned: `value: INTEGER | DECIMAL |
DOUBLE`. -/
inductive NumericLiteralUnsigned where
  | int (value : INTEGER)
  | dec (value : DECIMAL)
  | dbl (value : DOUBLE)
  deriving DecidableEq, Repr

/-- Embeds `NumericLiteralUnsigned.render`: delegates to the wrapped
terminal (all three of which inherit the failing `Terminal.render`). -/
def NumericLiteralUnsigned.render : NumericLiteralUnsigned → RenderResult
  | .int t => t.render
  | .dec t => t.render
  | .dbl t => t.render

/-- Embeds class NumericLiteralPositive: `value: INTEGER_POSITIVE |
DECIMAL_POSITIVE | DOUBLE_POSITIVE`. -/
inductive NumericLiteralPositive where
  | int (value : INTEGER_POSITIVE)
  | dec (value : DECIMAL_POSITIVE)
  | dbl (value : DOUBLE_POSITIVE)
  deriving DecidableEq, Repr

/-- Embeds `NumericLiteralPositive.render`. -/
def NumericLiteralPositive.render : NumericLiteralPositive → RenderResult
  | .int t => t.render
  | .dec t => t.render
  | .dbl t => t.render

/-- Embeds class NumericLiteralNegative: `value: INTEGER_NEGATIVE |
DECIMAL_NEGATIVE | DOUBLE_NEGATIVE`. -/
inductive NumericLiteralNegative where
  | int (value : INTEGER_NEGATIVE)
  | dec (value : DECIMAL_NEGATIVE)
  | dbl (value : DOUBLE_NEGATIVE)
  deriving DecidableEq, Repr

/-- Embeds `NumericLiteralNegative.render`. -/
def NumericLiteralNegative.render : NumericLiteralNegative → RenderResult
  | .int t => t.render
  | .dec t => t.render
  | .dbl t => t.render

/-- Embeds class NumericLiteral: `value: NumericLiteralUnsigned |
NumericLiteralPositive | NumericLiteralNegative`. -/
inductive NumericLiteral where
  | unsigned (value : NumericLiteralUnsigned)
  | positive (value : NumericLiteralPositive)
  | negative (value : NumericLiteralNegative)
  deriving DecidableEq, Repr

/-- Embeds `NumericLiteral.render`. -/
def NumericLiteral.render : NumericLiteral → RenderResult
  | .unsigned v => v.render
  | .positive v => v.render
  | .negative v => v.render

/-- Embeds class BooleanLiteral: `value: BoolOptions`. -/
structure BooleanLiteral where
  value : BoolOptions
  deriving DecidableEq, Repr

/-- Embeds `BooleanLiteral.render`: `yield from self.value.value`
iterates the characters of the member value string; joined back together
this is the member value string itself. -/
def BooleanLiteral.render (b : BooleanLiteral) : RenderResult :=
  .ok b.value.val

/-- Embeds class GraphTerm: `content: iri | RDFLiteral | NumericLiteral |
BooleanLiteral | BlankNode | NIL`. -/
inductive GraphTerm where
  | iriC (content : iri)
  | rdf (content : RDFLiteral)
  | num (content : NumericLiteral)
  | boolean (content : BooleanLiteral)
  | blank (content : BlankNode)
  | nil (content : NIL)
  deriving DecidableEq, Repr

/-- Embeds `GraphTerm.render`: delegates to the wrapped content. -/
def GraphTerm.render : GraphTerm → RenderResult
  | .iriC c => c.render
  | .rdf c => c.render
  | .num c => c.render
  | .boolean c => c.render
  | .blank c => c.render
  | .nil c => c.render

/-- Embeds class VarOrTerm: `varorterm: Var | GraphTerm`. -/
structure VarOrTerm where
  varorterm : Sum Var GraphTerm
  deriving DecidableEq, Repr

/-- Embeds `VarOrTerm.render`. -/
def VarOrTerm.render (v : VarOrTerm) : RenderResult :=
  match v.varorterm with
  | .inl x => x.render
  | .inr x => x.render

/-- Embeds class VarOrIri: `varoriri: Var | iri`. -/
structure VarOrIri where
  varoriri : Sum Var iri
  deriving DecidableEq, Repr

/-- Embeds `VarOrIri.render`. -/
def VarOrIri.render (v : VarOrIri) : RenderResult :=
  match v.varoriri with
  | .inl x => x.render
  | .inr x => x.render

/-!
Property-path classes of grammar.py.  `Path` is named `SG_Path` in the
source itself.  The family is mutually recursive because a PathPrimary
may wrap a parenthesised SG_Path or a PathNegatedPropertySet.
-/

/-- Embeds class PathMod: `pathmod: str`, one of `?`, `*`, `+`
(enforced by a field validator at construction). -/
structure PathMod where
  pathmod : String
  deriving DecidableEq, Repr

/-- Embeds `PathMod.render`: yields the stored string. -/
def PathMod.render (m : PathMod) : RenderResult := .ok m.pathmod

/-- Embeds class PathOneInPropertySet: `path: iri | VerbRDFType`,
`negated: bool = False`. -/
structure PathOneInPropertySet where
  path : Sum iri VerbRDFType
  negated : Bool := false
  deriving DecidableEq, Repr

/-- Embeds `PathOneInPropertySet.render`: `^` when negated, then the iri
render or the `a` keyword (the source yields `self.path.value`, the
member value string). -/
def PathOneInPropertySet.render (p : PathOneInPropertySet) : RenderResult :=
  rcat (if p.negated then .ok "^" else .ok "")
    (match p.path with
      | .inl i => i.render
      | .inr v => .ok v.val)

mutual

/-- Embeds class SG_Path: `path_alternative: PathAlternative`. -/
inductive SG_Path where
  | mk (path_alternative : PathAlternative)

/-- Embeds class PathAlternative: `sequence_paths: List[PathSequence]`
(validated non-empty at construction). -/
inductive PathAlternative where
  | mk (sequence_paths : List PathSequence)

/-- Embeds class PathSequence:
`list_path_elt_or_inverse: List[PathEltOrInverse]` (validated non-empty
at construction). -/
inductive PathSequence where
  | mk (list_path_elt_or_inverse : List PathEltOrInverse)

/-- Embeds class PathEltOrInverse: `path_elt: PathElt`,
`inverse: bool = False`. -/
inductive PathEltOrInverse where
  | mk (path_elt : PathElt) (inverse : Bool)

/-- Embeds class PathElt: `path_primary: PathPrimary`,
`path_mod: Optional[PathMod] = None`. -/
inductive PathElt where
  | mk (path_primary : PathPrimary) (path_mod : Option PathMod)

/-- Embeds class PathPrimary:
`value: iri | VerbRDFType | PathNegatedPropertySet | SG_Path`. -/
inductive PathPrimary where
  | iriV (value : iri)
  | a (value : VerbRDFType)
  | negated (value : PathNegatedPropertySet)
  | path (value : SG_Path)

/-- Embeds class PathNegatedPropertySet:
`first_path: PathOneInPropertySet`,
`other_paths: Optional[List[PathOneInPropertySet]]`. -/
inductive PathNegatedPropertySet where
  | mk (first_path : PathOneInPropertySet)
      (other_paths : Option (List PathOneInPropertySet))

end

mutual

/-- Embeds `SG_Path.render`: delegates to the alternative. -/
def SG_Path.render : SG_Path → RenderResult
  | .mk pa => pa.render

/-- Embeds `PathAlternative.render`: the first sequence path, then `|`
and the next for every further one.  On an empty list the `next` call
raises StopIteration inside the generator, which Python turns into a
RuntimeError. -/
def PathAlternative.render : PathAlternative → RenderResult
  | .mk [] => .error (.runtimeError "generator raised StopIteration")
  | .mk (p :: ps) => rcat p.render (PathAlternative.renderRest ps)

/-- Render of the remaining sequence paths, each preceded by `|`. -/
def PathAlternative.renderRest : List PathSequence → RenderResult
  | [] => .ok ""
  | p :: ps => rcat (lit "|") (rcat p.render (PathAlternative.renderRest ps))

/-- Embeds `PathSequence.render`: the first element, then `/` and the
next for every further one; empty list as in PathAlternative. -/
def PathSequence.render : PathSequence → RenderResult
  | .mk [] => .error (.runtimeError "generator raised StopIteration")
  | .mk (p :: ps) => rcat p.render (PathSequence.renderRest ps)

/-- Render of the remaining path elements, each preceded by `/`. -/
def PathSequence.renderRest : List PathEltOrInverse → RenderResult
  | [] => .ok ""
  | p :: ps => rcat (lit "/") (rcat p.render (PathSequence.renderRest ps))

/-- Embeds `PathEltOrInverse.render`: `^` when inverse, then the path
element. -/
def PathEltOrInverse.render : PathEltOrInverse → RenderResult
  | .mk pe inv => rcat (if inv then .ok "^" else .ok "") pe.render

/-- Embeds `PathElt.render`: the primary, then the modifier if present. -/
def PathElt.render : PathElt → RenderResult
  | .mk pp m =>
    rcat pp.render (match m with | none => .ok "" | some mo => mo.render)

/-- Embeds `PathPrimary.render`.  In the VerbRDFType branch the source
yields the enum member itself (`yield self.value`, not `.value.value`);
joining that non-string fragment raises TypeError, reported here at the
yield. -/
def PathPrimary.render : PathPrimary → RenderResult
  | .iriV i => i.render
  | .a _ =>
    .error (.typeError "sequence item 0: expected str instance, VerbRDFType found")
  | .negated n => rcat (lit "!") n.render
  | .path p => rcat (lit "(") (rcat p.render (lit ")"))

/-- Embeds `PathNegatedPropertySet.render`: the first path, then, only
when `other_paths` is a non-empty list, a parenthesised group holding the
other paths separated by `|`.  Note the first path stays outside the
parentheses and no separator is emitted before the group. -/
def PathNegatedPropertySet.render : PathNegatedPropertySet → RenderResult
  | .mk fp none => fp.render
  | .mk fp (some []) => fp.render
  | .mk fp (some (o :: os)) =>
    rcat fp.render
      (rcat (lit "(")
        (rcat o.render (rcat (PathNegatedPropertySet.renderRest os) (lit ")"))))

/-- Render of the remaining negated alternatives, each preceded by `|`. -/
def PathNegatedPropertySet.renderRest : List PathOneInPropertySet → RenderResult
  | [] => .ok ""
  | p :: ps =>
    rcat (lit "|") (rcat p.render (PathNegatedPropertySet.renderRest ps))

end

mutual

/-- Structural equality test for SG_Path, mirroring pydantic deep
equality (`__eq__` compares all fields recursively). -/
def SG_Path.beq : SG_Path → SG_Path → Bool
  | .mk a, .mk b => PathAlternative.beq a b

/-- Structural equality test for PathAlternative. -/
def PathAlternative.beq : PathAlternative → PathAlternative → Bool
  | .mk a, .mk b => PathAlternative.beqList a b

/-- Structural equality of lists of PathSequence. -/
def PathAlternative.beqList : List PathSequence → List PathSequence → Bool
  | [], [] => true
  | a :: as, b :: bs => PathSequence.beq a b && PathAlternative.beqList as bs
  | _, _ => false

/-- Structural equality test for PathSequence. -/
def PathSequence.beq : PathSequence → PathSequence → Bool
  | .mk a, .mk b => PathSequence.beqList a b

/-- Structural equality of lists of PathEltOrInverse. -/
def PathSequence.beqList : List PathEltOrInverse → List PathEltOrInverse → Bool
  | [], [] => true
  | a :: as, b :: bs => PathEltOrInverse.beq a b && PathSequence.beqList as bs
  | _, _ => false

/-- Structural equality test for PathEltOrInverse. -/
def PathEltOrInverse.beq : PathEltOrInverse → PathEltOrInverse → Bool
  | .mk pe i, .mk pe2 i2 => PathElt.beq pe pe2 && i == i2

/-- Structural equality test for PathElt. -/
def PathElt.beq : PathElt → PathElt → Bool
  | .mk pp m, .mk pp2 m2 => PathPrimary.beq pp pp2 && m == m2

/-- Structural equality test for PathPrimary. -/
def PathPrimary.beq : PathPrimary → PathPrimary → Bool
  | .iriV a, .iriV b => a == b
  | .a x, .a y => x == y
  | .negated a, .negated b => PathNegatedPropertySet.beq a b
  | .path a, .path b => SG_Path.beq a b
  | _, _ => false

/-- Structural equality test for PathNegatedPropertySet. -/
def PathNegatedPropertySet.beq :
    PathNegatedPropertySet → PathNegatedPropertySet → Bool
  | .mk f o, .mk f2 o2 =>
    f == f2 && PathNegatedPropertySet.beqOpt o o2

/-- Structural equality of the optional other-paths lists. -/
def PathNegatedPropertySet.beqOpt :
    Option (List PathOneInPropertySet) → Option (List PathOneInPropertySet) → Bool
  | none, none => true
  | some a, some b => a == b
  | _, _ => false

end

instance : BEq SG_Path := ⟨SG_Path.beq⟩

instance : BEq PathAlternative := ⟨PathAlternative.beq⟩

instance : BEq PathSequence := ⟨PathSequence.beq⟩

instance : BEq PathEltOrInverse := ⟨PathEltOrInverse.beq⟩

instance : BEq PathElt := ⟨PathElt.beq⟩

instance : BEq PathPrimary := ⟨PathPrimary.beq⟩

instance : BEq PathNegatedPropertySet := ⟨PathNegatedPropertySet.beq⟩

/-!
Triples classes of the non-path branch of grammar.py (used by CONSTRUCT
templates and quads).  ObjectList, GraphNode, TriplesNode,
BlankNodePropertyList and PropertyListNotEmpty are mutually recursive.
-/

/-- Embeds class Verb: `varoriri_or_a: VarOrIri | VerbRDFType`. -/
structure Verb where
  varoriri_or_a : Sum VarOrIri VerbRDFType
  deriving DecidableEq, Repr

/-- Embeds `Verb.render`: the VarOrIri render, or the member value string
of the `a` keyword. -/
def Verb.render (v : Verb) : RenderResult :=
  match v.varoriri_or_a with
  | .inl x => x.render
  | .inr x => .ok x.val

mutual

/-- Embeds class ObjectList: `list_object: List[Object]`. -/
inductive ObjectList where
  | mk (list_object : List Object)

/-- Embeds class Object: `graphnode: GraphNode`. -/
inductive Object where
  | mk (graphnode : GraphNode)

/-- Embeds class GraphNode:
`varorterm_or_triplesnode: VarOrTerm | TriplesNode`. -/
inductive GraphNode where
  | vot (varorterm_or_triplesnode : VarOrTerm)
  | tn (varorterm_or_triplesnode : TriplesNode)

/-- Embeds class TriplesNode:
`coll_or_bnpl: SG_Collection | BlankNodePropertyList`. -/
inductive TriplesNode where
  | coll (coll_or_bnpl : SG_Collection)
  | bnpl (coll_or_bnpl : BlankNodePropertyList)

/-- Embeds class SG_Collection: `graphnode_list: List[GraphNode]`. -/
inductive SG_Collection where
  | mk (graphnode_list : List GraphNode)

/-- Embeds class BlankNodePropertyList: `plne: PropertyListNotEmpty`. -/
inductive BlankNodePropertyList where
  | mk (plne : PropertyListNotEmpty)

/-- Embeds class PropertyListNotEmpty:
`verb_objectlist: List[Tuple[Verb, ObjectList]]`. -/
inductive PropertyListNotEmpty where
  | mk (verb_objectlist : List (Verb × ObjectList))

end

mutual

/-- Embeds `ObjectList.render`: the first object, then `,` and the next
for every further one.  The `next` on an empty list raises StopIteration
inside the generator, which Python reports as RuntimeError. -/
def ObjectList.render : ObjectList → RenderResult
  | .mk [] => .error (.runtimeError "generator raised StopIteration")
  | .mk (o :: os) => rcat o.render (ObjectList.renderRest os)

/-- Render of the remaining objects, each preceded by `,`. -/
def ObjectList.renderRest : List Object → RenderResult
  | [] => .ok ""
  | o :: os => rcat (lit ",") (rcat o.render (ObjectList.renderRest os))

/-- Embeds `Object.render`: delegates to the graph node. -/
def Object.render : Object → RenderResult
  | .mk g => g.render

/-- Embeds `GraphNode.render`: delegates to the wrapped value. -/
def GraphNode.render : GraphNode → RenderResult
  | .vot v => v.render
  | .tn t => t.render

/-- Embeds `TriplesNode.render`: delegates to the wrapped value. -/
def TriplesNode.render : TriplesNode → RenderResult
  | .coll c => c.render
  | .bnpl b => b.render

/-- Embeds `SG_Collection.render`: the graph nodes between parentheses,
with no separator between them. -/
def SG_Collection.render : SG_Collection → RenderResult
  | .mk l => rcat (lit "(") (rcat (SG_Collection.renderList l) (lit ")"))

/-- Render of a list of graph nodes, concatenated. -/
def SG_Collection.renderList : List GraphNode → RenderResult
  | [] => .ok ""
  | g :: gs => rcat g.render (SG_Collection.renderList gs)

/-- Embeds `BlankNodePropertyList.render`: the property list between
square brackets. -/
def BlankNodePropertyList.render : BlankNodePropertyList → RenderResult
  | .mk p => rcat (lit "[") (rcat p.render (lit "]"))

/-- Embeds `PropertyListNotEmpty.render`: first pair as `verb objectlist`
(space separated), every further pair preceded by `;`.  The `next` on an
empty list raises StopIteration inside the generator, reported as
RuntimeError. -/
def PropertyListNotEmpty.render : PropertyListNotEmpty → RenderResult
  | .mk [] => .error (.runtimeError "generator raised StopIteration")
  | .mk (vo :: vos) =>
    rcat vo.1.render
      (rcat (lit " ") (rcat vo.2.render (PropertyListNotEmpty.renderRest vos)))

/-- Render of the remaining (verb, objectlist) pairs, each preceded by
`;`. -/
def PropertyListNotEmpty.renderRest : List (Verb × ObjectList) → RenderResult
  | [] => .ok ""
  | vo :: vos =>
    rcat (lit ";")
      (rcat vo.1.render
        (rcat (lit " ") (rcat vo.2.render (PropertyListNotEmpty.renderRest vos))))

end

mutual

/-- Structural equality test for ObjectList, mirroring pydantic deep
equality. -/
def ObjectList.beq : ObjectList → ObjectList → Bool
  | .mk a, .mk b => ObjectList.beqList a b
termination_by x => sizeOf x
decreasing_by all_goals (simp_wf; try omega)

/-- Structural equality of lists of Object. -/
def ObjectList.beqList : List Object → List Object → Bool
  | [], [] => true
  | a :: as, b :: bs => Object.beq a b && ObjectList.beqList as bs
  | _, _ => false
termination_by x => sizeOf x
decreasing_by all_goals (simp_wf; try omega)

/-- Structural equality test for Object. -/
def Object.beq : Object → Object → Bool
  | .mk a, .mk b => GraphNode.beq a b
termination_by x => sizeOf x
decreasing_by all_goals (simp_wf; try omega)

/-- Structural equality test for GraphNode. -/
def GraphNode.beq : GraphNode → GraphNode → Bool
  | .vot a, .vot b => a == b
  | .tn a, .tn b => TriplesNode.beq a b
  | _, _ => false
termination_by x => sizeOf x
decreasing_by all_goals (simp_wf; try omega)

/-- Structural equality test for TriplesNode. -/
def TriplesNode.beq : TriplesNode → TriplesNode → Bool
  | .coll a, .coll b => SG_Collection.beq a b
  | .bnpl a, .bnpl b => BlankNodePropertyList.beq a b
  | _, _ => false
termination_by x => sizeOf x
decreasing_by all_goals (simp_wf; try omega)

/-- Structural equality test for SG_Collection. -/
def SG_Collection.beq : SG_Collection → SG_Collection → Bool
  | .mk a, .mk b => SG_Collection.beqList a b
termination_by x => sizeOf x
decreasing_by all_goals (simp_wf; try omega)

/-- Structural equality of lists of GraphNode. -/
def SG_Collection.beqList : List GraphNode → List GraphNode → Bool
  | [], [] => true
  | a :: as, b :: bs => GraphNode.beq a b && SG_Collection.beqList as bs
  | _, _ => false
termination_by x => sizeOf x
decreasing_by all_goals (simp_wf; try omega)

/-- Structural equality test for BlankNodePropertyList. -/
def BlankNodePropertyList.beq : BlankNodePropertyList → BlankNodePropertyList → Bool
  | .mk a, .mk b => PropertyListNotEmpty.beq a b
termination_by x => sizeOf x
decreasing_by all_goals (simp_wf; try omega)

/-- Structural equality test for PropertyListNotEmpty. -/
def PropertyListNotEmpty.beq : PropertyListNotEmpty → PropertyListNotEmpty → Bool
  | .mk a, .mk b => PropertyListNotEmpty.beqPairs a b
termination_by x => sizeOf x
decreasing_by all_goals (simp_wf; try omega)

/-- Structural equality of lists of (Verb, ObjectList) pairs. -/
def PropertyListNotEmpty.beqPairs :
    List (Verb × ObjectList) → List (Verb × ObjectList) → Bool
  | [], [] => true
  | (v, ol) :: as, (v2, ol2) :: bs =>
    v == v2 && ObjectList.beq ol ol2 && PropertyListNotEmpty.beqPairs as bs
  | _, _ => false
termination_by x => sizeOf x
decreasing_by all_goals (simp_wf; try omega)

end

instance : BEq ObjectList := ⟨ObjectList.beq⟩

instance : BEq Object := ⟨Object.beq⟩

instance : BEq GraphNode := ⟨GraphNode.beq⟩

instance : BEq TriplesNode := ⟨TriplesNode.beq⟩

instance : BEq SG_Collection := ⟨SG_Collection.beq⟩

instance : BEq BlankNodePropertyList := ⟨BlankNodePropertyList.beq⟩

instance : BEq PropertyListNotEmpty := ⟨PropertyListNotEmpty.beq⟩

/-- Embeds class PropertyList: `plne: Optional[PropertyListNotEmpty]`. -/
structure PropertyList where
  plne : Option PropertyListNotEmpty := none

/-- Embeds `PropertyList.render`: the wrapped render, or nothing. -/
def PropertyList.render (p : PropertyList) : RenderResult :=
  match p.plne with
  | some x => x.render
  | none => .ok ""

/-- Structural equality test for PropertyList. -/
def PropertyList.beq : PropertyList → PropertyList → Bool
  | ⟨none⟩, ⟨none⟩ => true
  | ⟨some a⟩, ⟨some b⟩ => a == b
  | _, _ => false

instance : BEq PropertyList := ⟨PropertyList.beq⟩

/-- Embeds class TriplesSameSubject:
`content: Tuple[VarOrTerm, PropertyListNotEmpty] |
Tuple[TriplesNode, PropertyList]`. -/
inductive TriplesSameSubject where
  | votPlne (content : VarOrTerm × PropertyListNotEmpty)
  | tnPl (content : TriplesNode × PropertyList)

/-- Embeds `TriplesSameSubject.render`: first tuple component, a space,
second tuple component. -/
def TriplesSameSubject.render : TriplesSameSubject → RenderResult
  | .votPlne (v, p) => rcat v.render (rcat (lit " ") p.render)
  | .tnPl (t, p) => rcat t.render (rcat (lit " ") p.render)

/-- Structural equality test for TriplesSameSubject. -/
def TriplesSameSubject.beq : TriplesSameSubject → TriplesSameSubject → Bool
  | .votPlne (v, p), .votPlne (v2, p2) => v == v2 && p == p2
  | .tnPl (t, p), .tnPl (t2, p2) => TriplesNode.beq t t2 && p == p2
  | _, _ => false

instance : BEq TriplesSameSubject := ⟨TriplesSameSubject.beq⟩

/-- Embeds class TriplesTemplate:
`triples_same_subject: TriplesSameSubject`,
`triples_template: Optional[TriplesTemplate] = None`. -/
inductive TriplesTemplate where
  | mk (triples_same_subject : TriplesSameSubject)
      (triples_template : Option TriplesTemplate)

/-- Embeds `TriplesTemplate.render`.  The source body reads
`self.triples_same_subject_path`, but the declared field is
`triples_same_subject`, so every call raises AttributeError. -/
def TriplesTemplate.render (_ : TriplesTemplate) : RenderResult :=
  .error (.attributeError "triples_same_subject_path")

/-- Embeds class QuadsNotTriples: `var_or_iri: VarOrIri`,
`triples_template: Optional[TriplesTemplate] = None`. -/
structure QuadsNotTriples where
  var_or_iri : VarOrIri
  triples_template : Option TriplesTemplate := none

/-- Embeds `QuadsNotTriples.render`: `GRAPH `, the graph name, ` ` and
an opening brace, the optional template, a closing brace. -/
def QuadsNotTriples.render (q : QuadsNotTriples) : RenderResult :=
  rcats [lit "GRAPH ", q.var_or_iri.render, lit " \x7b",
    (match q.triples_template with
      | some t => t.render
      | none => .ok ""),
    lit "\x7d"]

/-- Embeds class Quads (which subclasses plain BaseModel):
`triples_templates: List[TriplesTemplate]`,
`quads_not_triples: Optional[List[QuadsNotTriples]] = None`. -/
structure Quads where
  triples_templates : List TriplesTemplate
  quads_not_triples : Option (List QuadsNotTriples) := none

/-- Embeds `Quads.validate_templates_and_quads`, the `model_validator`
that pydantic runs on every construction.  The source computes
`qnt_len = len(self.quads_not_triples)` before any check, so a `None`
value (the field default) raises TypeError; afterwards fewer than one
template, or more than one template with fewer than N-1
QuadsNotTriples, raises ValueError (surfaced by pydantic as a
ValidationError). -/
def Quads.validate_templates_and_quads (tts : List TriplesTemplate)
    (qnts : Option (List QuadsNotTriples)) : Except PyErr Unit :=
  match pyLen qnts with
  | .error e => .error e
  | .ok qnt_len =>
    if tts.length < 1 then
      .error (.valueError "There must be at least one TriplesTemplate")
    else if tts.length > 1 ∧ qnt_len < tts.length - 1 then
      .error (.valueError
        "When there is more than one TriplesTemplate there must be at least N-1 QuadsNotTriples")
    else .ok ()

/-- Construction of a Quads value: pydantic builds the instance and then
runs the model validator, so construction succeeds exactly when the
validator does. -/
def Quads.construct (tts : List TriplesTemplate)
    (qnts : Option (List QuadsNotTriples)) : Except PyErr Quads :=
  match Quads.validate_templates_and_quads tts qnts with
  | .error e => .error e
  | .ok _ => .ok ⟨tts, qnts⟩

/-- Embeds the loop of `Quads.render`: for each index into
`quads_not_triples` the source renders the QuadsNotTriples, a ` .`
separator, and then the triples template at the following index when one
exists.  This helper walks the QuadsNotTriples list together with the
templates after the first. -/
def Quads.renderLoop : List QuadsNotTriples → List TriplesTemplate → RenderResult
  | [], _ => .ok ""
  | q :: qs, [] => rcat q.render (rcat (lit " .") (Quads.renderLoop qs []))
  | q :: qs, t :: ts =>
    rcat q.render (rcat (lit " .") (rcat t.render (Quads.renderLoop qs ts)))

/-- Embeds `Quads.render`: the first template when the list is non-empty,
then the loop above; iterating `range(len(self.quads_not_triples))` with
the `None` default raises TypeError. -/
def Quads.render (q : Quads) : RenderResult :=
  rcat
    (match q.triples_templates with
      | [] => .ok ""
      | t :: _ => t.render)
    (match q.quads_not_triples with
      | none => .error (.typeError "object of type NoneType has no len")
      | some qnts => Quads.renderLoop qnts (q.triples_templates.drop 1))

/-- Embeds class ConstructTriples: `triples: TriplesSameSubject`,
`construct_triples: Optional[ConstructTriples] = None`. -/
inductive ConstructTriples where
  | mk (triples : TriplesSameSubject)
      (construct_triples : Option ConstructTriples)

/-- Embeds `ConstructTriples.render`: the triples, then ` .` and a
newline followed by the nested ConstructTriples when present. -/
def ConstructTriples.render : ConstructTriples → RenderResult
  | .mk t none => t.render
  | .mk t (some ct) => rcat t.render (rcat (lit " .\n") ct.render)

/-- Chain of `triples` values stored along the `construct_triples`
spine of a ConstructTriples. -/
def ConstructTriples.spine : ConstructTriples → List TriplesSameSubject
  | .mk t none => [t]
  | .mk t (some ct) => t :: ct.spine

/-- Embeds one step of the loop body of `ConstructTriples.merge_ct`: the
source walks `current_ct` down to the first node whose
`construct_triples` is `None` and assigns the next ConstructTriples to
that field.  On immutable values this produces the tree in which the
bottom of the first argument points at the second. -/
def ConstructTriples.linkBottom : ConstructTriples → ConstructTriples → ConstructTriples
  | .mk t none, next => .mk t (some next)
  | .mk t (some rest), next => .mk t (some (ConstructTriples.linkBottom rest next))

/-- Embeds `ConstructTriples.merge_ct`: `None` for the empty list,
otherwise the first element with every later element linked to the
bottom of the chain in turn. -/
def ConstructTriples.merge_ct : List ConstructTriples → Option ConstructTriples
  | [] => none
  | c :: cs => some (cs.foldl ConstructTriples.linkBottom c)

/-- State of the object passed as the k-th input of
`ConstructTriples.merge_ct` after the call returns, assuming the inputs
are pairwise distinct trees.  The loop mutates in place: it assigns
`current_ct.construct_triples = next_ct` on the bottom node of the
running chain, so after the call the k-th input object has been relinked
into the chain that merges inputs k, k+1, ..., n. -/
def ConstructTriples.merge_ct_inputStateAfter (l : List ConstructTriples)
    (k : Nat) : Option ConstructTriples :=
  ConstructTriples.merge_ct (l.drop k)

/-!
Triples classes of the path branch of grammar.py, the ones used inside
WHERE patterns.  TriplesSameSubjectPath is the deduplication unit of
`collect_triples`.
-/

/-- Embeds class VerbPath: `path: SG_Path`. -/
structure VerbPath where
  path : SG_Path

/-- Embeds `VerbPath.render`: delegates to the path. -/
def VerbPath.render (v : VerbPath) : RenderResult := v.path.render

/-- Structural equality test for VerbPath. -/
def VerbPath.beq (a b : VerbPath) : Bool := a.path == b.path

instance : BEq VerbPath := ⟨VerbPath.beq⟩

/-- Embeds class VerbSimple: `var: Var`. -/
structure VerbSimple where
  var : Var
  deriving DecidableEq, Repr

/-- Embeds `VerbSimple.render`: delegates to the variable. -/
def VerbSimple.render (v : VerbSimple) : RenderResult := v.var.render

mutual

/-- Embeds class ObjectListPath: `object_paths: List[ObjectPath]`. -/
inductive ObjectListPath where
  | mk (object_paths : List ObjectPath)

/-- Embeds class ObjectPath: `graph_node_path: GraphNodePath`. -/
inductive ObjectPath where
  | mk (graph_node_path : GraphNodePath)

/-- Embeds class GraphNodePath:
`varorterm_or_triplesnodepath: VarOrTerm | TriplesNodePath`. -/
inductive GraphNodePath where
  | vot (varorterm_or_triplesnodepath : VarOrTerm)
  | tnp (varorterm_or_triplesnodepath : TriplesNodePath)

/-- Embeds class TriplesNodePath:
`coll_path_or_bnpl_path: CollectionPath | BlankNodePropertyListPath`. -/
inductive TriplesNodePath where
  | coll (coll_path_or_bnpl_path : CollectionPath)
  | bnpl (coll_path_or_bnpl_path : BlankNodePropertyListPath)

/-- Embeds class CollectionPath:
`graphnodepath_list: List[GraphNodePath]`. -/
inductive CollectionPath where
  | mk (graphnodepath_list : List GraphNodePath)

/-- Embeds class BlankNodePropertyListPath:
`plpne: PropertyListPathNotEmpty`. -/
inductive BlankNodePropertyListPath where
  | mk (plpne : PropertyListPathNotEmpty)

/-- Embeds class PropertyListPathNotEmpty:
`first_pair: Tuple[VerbPath | VerbSimple, ObjectListPath]`,
`other_pairs: Optional[List[Tuple[VerbPath | VerbSimple, ObjectList]]] =
None`.  Note the other pairs carry plain ObjectList values, exactly as
annotated in the source. -/
inductive PropertyListPathNotEmpty where
  | mk (first_pair : Sum VerbPath VerbSimple × ObjectListPath)
      (other_pairs : Option (List (Sum VerbPath VerbSimple × ObjectList)))

end

mutual

/-- Embeds `ObjectListPath.render`: the first object path, then `,` and
the next for every further one; the `next` on an empty list raises
StopIteration inside the generator, reported as RuntimeError. -/
def ObjectListPath.render : ObjectListPath → RenderResult
  | .mk [] => .error (.runtimeError "generator raised StopIteration")
  | .mk (o :: os) => rcat o.render (ObjectListPath.renderRest os)
termination_by x => sizeOf x
decreasing_by all_goals (simp_wf; try omega)

/-- Render of the remaining object paths, each preceded by `,`. -/
def ObjectListPath.renderRest : List ObjectPath → RenderResult
  | [] => .ok ""
  | o :: os => rcat (lit ",") (rcat o.render (ObjectListPath.renderRest os))
termination_by x => sizeOf x
decreasing_by all_goals (simp_wf; try omega)

/-- Embeds `ObjectPath.render`: delegates to the graph node path. -/
def ObjectPath.render : ObjectPath → RenderResult
  | .mk g => g.render
termination_by x => sizeOf x
decreasing_by all_goals (simp_wf; try omega)

/-- Embeds `GraphNodePath.render`: delegates to the wrapped value. -/
def GraphNodePath.render : GraphNodePath → RenderResult
  | .vot v => v.render
  | .tnp t => t.render
termination_by x => sizeOf x
decreasing_by all_goals (simp_wf; try omega)

/-- Embeds `TriplesNodePath.render`: delegates to the wrapped value. -/
def TriplesNodePath.render : TriplesNodePath → RenderResult
  | .coll c => c.render
  | .bnpl b => b.render
termination_by x => sizeOf x
decreasing_by all_goals (simp_wf; try omega)

/-- Embeds `CollectionPath.render`: the graph node paths between
parentheses, with no separator between them. -/
def CollectionPath.render : CollectionPath → RenderResult
  | .mk l => rcat (lit "(") (rcat (CollectionPath.renderList l) (lit ")"))
termination_by x => sizeOf x
decreasing_by all_goals (simp_wf; try omega)

/-- Render of a list of graph node paths, concatenated. -/
def CollectionPath.renderList : List GraphNodePath → RenderResult
  | [] => .ok ""
  | g :: gs => rcat g.render (CollectionPath.renderList gs)
termination_by x => sizeOf x
decreasing_by all_goals (simp_wf; try omega)

/-- Embeds `BlankNodePropertyListPath.render`: the property list between
square brackets. -/
def BlankNodePropertyListPath.render : BlankNodePropertyListPath → RenderResult
  | .mk p => rcat (lit "[") (rcat p.render (lit "]"))
termination_by x => sizeOf x
decreasing_by all_goals (simp_wf; try omega)

/-- Embeds `PropertyListPathNotEmpty.render`: the first verb, a space,
the first object list path, then each further pair preceded by `;` with
a space between its verb and its object list. -/
def PropertyListPathNotEmpty.render : PropertyListPathNotEmpty → RenderResult
  | .mk (v, olp) ops =>
    rcat (PropertyListPathNotEmpty.renderVerb v)
      (rcat (lit " ")
        (rcat olp.render
          (match ops with
            | none => .ok ""
            | some l => PropertyListPathNotEmpty.renderRest l)))
termination_by x => sizeOf x
decreasing_by all_goals (simp_wf; try omega)

/-- Render of a `VerbPath | VerbSimple` union value. -/
def PropertyListPathNotEmpty.renderVerb : Sum VerbPath VerbSimple → RenderResult
  | .inl vp => vp.render
  | .inr vs => vs.render

/-- Render of the remaining (verb, object list) pairs, each preceded by
`;`. -/
def PropertyListPathNotEmpty.renderRest :
    List (Sum VerbPath VerbSimple × ObjectList) → RenderResult
  | [] => .ok ""
  | (v, ol) :: ps =>
    rcat (lit ";")
      (rcat (PropertyListPathNotEmpty.renderVerb v)
        (rcat (lit " ") (rcat ol.render (PropertyListPathNotEmpty.renderRest ps))))
termination_by x => sizeOf x
decreasing_by all_goals (simp_wf; try omega)

end

mutual

/-- Structural equality test for ObjectListPath, mirroring pydantic deep
equality. -/
def ObjectListPath.beq : ObjectListPath → ObjectListPath → Bool
  | .mk a, .mk b => ObjectListPath.beqList a b
termination_by x => sizeOf x
decreasing_by all_goals (simp_wf; try omega)

/-- Structural equality of lists of ObjectPath. -/
def ObjectListPath.beqList : List ObjectPath → List ObjectPath → Bool
  | [], [] => true
  | a :: as, b :: bs => ObjectPath.beq a b && ObjectListPath.beqList as bs
  | _, _ => false
termination_by x => sizeOf x
decreasing_by all_goals (simp_wf; try omega)

/-- Structural equality test for ObjectPath. -/
def ObjectPath.beq : ObjectPath → ObjectPath → Bool
  | .mk a, .mk b => GraphNodePath.beq a b
termination_by x => sizeOf x
decreasing_by all_goals (simp_wf; try omega)

/-- Structural equality test for GraphNodePath. -/
def GraphNodePath.beq : GraphNodePath → GraphNodePath → Bool
  | .vot a, .vot b => a == b
  | .tnp a, .tnp b => TriplesNodePath.beq a b
  | _, _ => false
termination_by x => sizeOf x
decreasing_by all_goals (simp_wf; try omega)

/-- Structural equality test for TriplesNodePath. -/
def TriplesNodePath.beq : TriplesNodePath → TriplesNodePath → Bool
  | .coll a, .coll b => CollectionPath.beq a b
  | .bnpl a, .bnpl b => BlankNodePropertyListPath.beq a b
  | _, _ => false
termination_by x => sizeOf x
decreasing_by all_goals (simp_wf; try omega)

/-- Structural equality test for CollectionPath. -/
def CollectionPath.beq : CollectionPath → CollectionPath → Bool
  | .mk a, .mk b => CollectionPath.beqList a b
termination_by x => sizeOf x
decreasing_by all_goals (simp_wf; try omega)

/-- Structural equality of lists of GraphNodePath. -/
def CollectionPath.beqList : List GraphNodePath → List GraphNodePath → Bool
  | [], [] => true
  | a :: as, b :: bs => GraphNodePath.beq a b && CollectionPath.beqList as bs
  | _, _ => false
termination_by x => sizeOf x
decreasing_by all_goals (simp_wf; try omega)

/-- Structural equality test for BlankNodePropertyListPath. -/
def BlankNodePropertyListPath.beq :
    BlankNodePropertyListPath → BlankNodePropertyListPath → Bool
  | .mk a, .mk b => PropertyListPathNotEmpty.beq a b
termination_by x => sizeOf x
decreasing_by all_goals (simp_wf; try omega)

/-- Structural equality test for PropertyListPathNotEmpty. -/
def PropertyListPathNotEmpty.beq :
    PropertyListPathNotEmpty → PropertyListPathNotEmpty → Bool
  | .mk (v, olp) ops, .mk (v2, olp2) ops2 =>
    v == v2 && ObjectListPath.beq olp olp2 &&
      PropertyListPathNotEmpty.beqOpt ops ops2
termination_by x => sizeOf x
decreasing_by all_goals (simp_wf; try omega)

/-- Structural equality of the optional other-pairs lists. -/
def PropertyListPathNotEmpty.beqOpt :
    Option (List (Sum VerbPath VerbSimple × ObjectList)) →
    Option (List (Sum VerbPath VerbSimple × ObjectList)) → Bool
  | none, none => true
  | some a, some b => a == b
  | _, _ => false

end

instance : BEq ObjectListPath := ⟨ObjectListPath.beq⟩

instance : BEq ObjectPath := ⟨ObjectPath.beq⟩

instance : BEq GraphNodePath := ⟨GraphNodePath.beq⟩

instance : BEq TriplesNodePath := ⟨TriplesNodePath.beq⟩

instance : BEq CollectionPath := ⟨CollectionPath.beq⟩

instance : BEq BlankNodePropertyListPath := ⟨BlankNodePropertyListPath.beq⟩

instance : BEq PropertyListPathNotEmpty := ⟨PropertyListPathNotEmpty.beq⟩

/-- Embeds class PropertyListPath:
`plpne: Optional[PropertyListPathNotEmpty] = None`. -/
structure PropertyListPath where
  plpne : Option PropertyListPathNotEmpty := none

/-- Embeds `PropertyListPath.render`: the wrapped render, or nothing. -/
def PropertyListPath.render (p : PropertyListPath) : RenderResult :=
  match p.plpne with
  | some x => x.render
  | none => .ok ""

/-- Structural equality test for PropertyListPath. -/
def PropertyListPath.beq : PropertyListPath → PropertyListPath → Bool
  | ⟨none⟩, ⟨none⟩ => true
  | ⟨some a⟩, ⟨some b⟩ => a == b
  | _, _ => false

instance : BEq PropertyListPath := ⟨PropertyListPath.beq⟩

/-- Embeds class TriplesSameSubjectPath:
`content: Tuple[VarOrTerm, PropertyListPathNotEmpty] |
Tuple[TriplesNodePath, PropertyListPath]`. -/
inductive TriplesSameSubjectPath where
  | votPlpne (content : VarOrTerm × PropertyListPathNotEmpty)
  | tnpPlp (content : TriplesNodePath × PropertyListPath)

/-- Embeds `TriplesSameSubjectPath.render`: first tuple component, a
space, second tuple component. -/
def TriplesSameSubjectPath.render : TriplesSameSubjectPath → RenderResult
  | .votPlpne (v, p) => rcat v.render (rcat (lit " ") p.render)
  | .tnpPlp (t, p) => rcat t.render (rcat (lit " ") p.render)

/-- Structural equality test for TriplesSameSubjectPath, the equality
that Python `set` deduplication uses via `__eq__`/`__hash__`. -/
def TriplesSameSubjectPath.beq :
    TriplesSameSubjectPath → TriplesSameSubjectPath → Bool
  | .votPlpne (v, p), .votPlpne (v2, p2) => v == v2 && p == p2
  | .tnpPlp (t, p), .tnpPlp (t2, p2) => t == t2 && p == p2
  | _, _ => false

instance : BEq TriplesSameSubjectPath := ⟨TriplesSameSubjectPath.beq⟩

/-- Embeds `TriplesSameSubjectPath.from_spo` (grammar.py lines
1596-1667).  The subject and object accept `Var | iri | BlankNode`, the
predicate `Var | iri`; a Var subject or object is wrapped directly in a
VarOrTerm, an iri or BlankNode goes through GraphTerm; a Var predicate
becomes a VerbSimple and an iri predicate a VerbPath wrapping the
single-element path chain; the object sits in a single ObjectPath inside
a single ObjectListPath. -/
def TriplesSameSubjectPath.from_spo (subject : Sum Var (Sum iri BlankNode))
    (predicate : Sum Var iri) (object : Sum Var (Sum iri BlankNode)) :
    TriplesSameSubjectPath :=
  let s_vot : VarOrTerm :=
    match subject with
    | .inl v => ⟨.inl v⟩
    | .inr (.inl i) => ⟨.inr (.iriC i)⟩
    | .inr (.inr b) => ⟨.inr (.blank b)⟩
  let verb : Sum VerbPath VerbSimple :=
    match predicate with
    | .inl v => .inr ⟨v⟩
    | .inr i =>
      .inl ⟨SG_Path.mk (PathAlternative.mk [PathSequence.mk
        [PathEltOrInverse.mk (PathElt.mk (PathPrimary.iriV i) none) false]])⟩
  let o_vot : VarOrTerm :=
    match object with
    | .inl v => ⟨.inl v⟩
    | .inr (.inl i) => ⟨.inr (.iriC i)⟩
    | .inr (.inr b) => ⟨.inr (.blank b)⟩
  .votPlpne (s_vot,
    PropertyListPathNotEmpty.mk
      (verb, ObjectListPath.mk [ObjectPath.mk (GraphNodePath.vot o_vot)])
      none)

/-- Modelled from the spec: the tree a caller assembles by hand, field by
field, from the same nested constructors that `from_spo` uses — a
VarOrTerm subject (through GraphTerm for iri and blank-node subjects), a
VerbSimple predicate for a variable or a VerbPath wrapping the
single-element PathAlternative, PathSequence, PathEltOrInverse, PathElt,
PathPrimary chain for an iri, and a PropertyListPathNotEmpty whose
single ObjectListPath holds one ObjectPath with the object. -/
def TriplesSameSubjectPath.handAssembled (subject : Sum Var (Sum iri BlankNode))
    (predicate : Sum Var iri) (object : Sum Var (Sum iri BlankNode)) :
    TriplesSameSubjectPath :=
  let s_vot : VarOrTerm :=
    match subject with
    | .inl v => VarOrTerm.mk (.inl v)
    | .inr (.inl i) => VarOrTerm.mk (.inr (GraphTerm.iriC i))
    | .inr (.inr b) => VarOrTerm.mk (.inr (GraphTerm.blank b))
  let verb : Sum VerbPath VerbSimple :=
    match predicate with
    | .inl v => .inr (VerbSimple.mk v)
    | .inr i =>
      .inl (VerbPath.mk (SG_Path.mk (PathAlternative.mk [PathSequence.mk
        [PathEltOrInverse.mk (PathElt.mk (PathPrimary.iriV i) none) false]])))
  let o_vot : VarOrTerm :=
    match object with
    | .inl v => VarOrTerm.mk (.inl v)
    | .inr (.inl i) => VarOrTerm.mk (.inr (GraphTerm.iriC i))
    | .inr (.inr b) => VarOrTerm.mk (.inr (GraphTerm.blank b))
  TriplesSameSubjectPath.votPlpne (s_vot,
    PropertyListPathNotEmpty.mk
      (verb, ObjectListPath.mk [ObjectPath.mk (GraphNodePath.vot o_vot)])
      none)

/-!
VALUES data blocks and solution-modifier helper classes, all outside the
big recursive knot of graph patterns and expressions.
-/

/-- Embeds class DataBlockValue:
`value: iri | RDFLiteral | NumericLiteral | BooleanLiteral | UndefEnum`. -/
inductive DataBlockValue where
  | iriV (value : iri)
  | rdf (value : RDFLiteral)
  | num (value : NumericLiteral)
  | boolean (value : BooleanLiteral)
  | undef (value : UndefEnum)
  deriving Repr

/-- Embeds `DataBlockValue.render`.  In the UndefEnum branch the source
yields the enum member itself (`yield self.value`, not its string
value); joining that non-string fragment raises TypeError, reported here
at the yield. -/
def DataBlockValue.render : DataBlockValue → RenderResult
  | .undef _ =>
    .error (.typeError "sequence item 0: expected str instance, UndefEnum found")
  | .iriV v => v.render
  | .rdf v => v.render
  | .num v => v.render
  | .boolean v => v.render

/-- Embeds class InlineDataOneVar: `variable: Var` (spelt `variable_`
here because `variable` is a Lean keyword),
`datablockvalues: List[DataBlockValue]`. -/
structure InlineDataOneVar where
  variable_ : Var
  datablockvalues : List DataBlockValue

/-- Render of a list of data block values, each followed by a space. -/
def DataBlockValue.renderListSp : List DataBlockValue → RenderResult
  | [] => .ok ""
  | v :: vs => rcat v.render (rcat (lit " ") (DataBlockValue.renderListSp vs))

/-- Embeds `InlineDataOneVar.render`: the variable, an opening brace, the
values each followed by a space, a closing brace. -/
def InlineDataOneVar.render (d : InlineDataOneVar) : RenderResult :=
  rcats [d.variable_.render, lit "\x7b ",
    DataBlockValue.renderListSp d.datablockvalues, lit " \x7d"]

/-- Embeds class InlineDataFull:
`vars: NIL | List[Var]`, `datablocks: List[List[DataBlockValue] | NIL]`. -/
structure InlineDataFull where
  vars : Sum NIL (List Var)
  datablocks : List (Sum (List DataBlockValue) NIL)

/-- Render of a list of variables, each followed by a space. -/
def InlineDataFull.renderVars : List Var → RenderResult
  | [] => .ok ""
  | v :: vs => rcat v.render (rcat (lit " ") (InlineDataFull.renderVars vs))

/-- Render of the data blocks of an InlineDataFull.  A non-empty inner
list renders parenthesised values each followed by a space and a
trailing newline; an empty inner list renders `()`; a NIL block is
truthy, so the source iterates it, which on a pydantic model yields
(name, value) tuples whose `.render` raises AttributeError (after the
opening parenthesis was yielded). -/
def InlineDataFull.renderBlocks : List (Sum (List DataBlockValue) NIL) → RenderResult
  | [] => .ok ""
  | .inl [] :: bs => rcat (lit "()") (InlineDataFull.renderBlocks bs)
  | .inl (v :: vs) :: bs =>
    rcat (lit "(")
      (rcat (DataBlockValue.renderListSp (v :: vs))
        (rcat (lit ")") (rcat (lit "\n") (InlineDataFull.renderBlocks bs))))
  | .inr _ :: _ => rcat (lit "(") (.error (.attributeError "render"))

/-- Embeds `InlineDataFull.render`.  A NIL `vars` value is truthy, so the
source tries to iterate it and calls `.render` on the (name, value)
pairs a pydantic model yields, raising AttributeError; an empty variable
list is falsy and renders only the opening brace; a non-empty list
renders the parenthesised variables.  `datablocks` is never `None` for
the annotated type, so the `is None` branch is dead and the blocks are
rendered by the helper above, followed by the closing brace. -/
def InlineDataFull.render (d : InlineDataFull) : RenderResult :=
  rcat
    (match d.vars with
      | .inl _ => rcat (lit "(") (.error (.attributeError "render"))
      | .inr [] => lit "\x7b"
      | .inr (v :: vs) =>
        rcat (lit "(")
          (rcat (InlineDataFull.renderVars (v :: vs)) (lit ") \x7b")))
    (rcat (InlineDataFull.renderBlocks d.datablocks) (lit "\x7d"))

/-- Embeds class DataBlock: `block: InlineDataOneVar | InlineDataFull`. -/
structure DataBlock where
  block : Sum InlineDataOneVar InlineDataFull

/-- Embeds `DataBlock.render`: delegates to the block. -/
def DataBlock.render (d : DataBlock) : RenderResult :=
  match d.block with
  | .inl b => b.render
  | .inr b => b.render

/-- Embeds class InlineData: `data_block: DataBlock`. -/
structure InlineData where
  data_block : DataBlock

/-- Embeds `InlineData.render`: a newline, a tab, `VALUES ` and the data
block. -/
def InlineData.render (d : InlineData) : RenderResult :=
  rcat (lit "\n\tVALUES ") d.data_block.render

/-- Embeds class ValuesClause: `data_block: Optional[DataBlock]`. -/
structure ValuesClause where
  data_block : Option DataBlock

/-- Embeds `ValuesClause.render`: nothing when absent, otherwise a
newline, a tab, `VALUES ` and the data block. -/
def ValuesClause.render (v : ValuesClause) : RenderResult :=
  match v.data_block with
  | none => .ok ""
  | some d => rcat (lit "\n\tVALUES ") d.render

/-- Fragments yielded by `Var.render`, needed because `OrderClause`
joins individual fragments with spaces: VAR1 yields `?` and the name as
two separate fragments, VAR2 yields `$` and the name. -/
def Var.renderParts (v : Var) : List String :=
  match v.value with
  | .inl t => ["?", t.value]
  | .inr t => ["$", t.value]

/-- Embeds class OrderCondition: `var: Var`,
`direction: Optional[str] = None`.  Ascending order has no explicit
marker; a direction wraps the variable in `DIRECTION(...)`. -/
structure OrderCondition where
  var : Var
  direction : Option String := none
  deriving DecidableEq, Repr

/-- Fragments yielded by `OrderCondition.render`: with a direction the
fragment `direction(`, then the variable fragments, then `)`; without a
direction just the variable fragments. -/
def OrderCondition.renderParts (c : OrderCondition) : List String :=
  match c.direction with
  | some d => (d ++ "(") :: c.var.renderParts ++ [")"]
  | none => c.var.renderParts

/-- Embeds class OrderClause: `conditions: List[OrderCondition]`. -/
structure OrderClause where
  conditions : List OrderCondition
  deriving DecidableEq, Repr

/-- Embeds `OrderClause.render`: `\nORDER BY ` then every fragment of
every condition joined by single spaces (the source joins the flattened
fragment stream, not the conditions). -/
def OrderClause.render (o : OrderClause) : RenderResult :=
  rcat (lit "\nORDER BY ")
    (.ok (String.intercalate " " (o.conditions.flatMap OrderCondition.renderParts)))

/-- Embeds class LimitClause: `limit: int`. -/
structure LimitClause where
  limit : Int
  deriving DecidableEq, Repr

/-- Embeds `LimitClause.render`: the f-string `LIMIT {limit}`. -/
def LimitClause.render (l : LimitClause) : RenderResult :=
  .ok ("LIMIT " ++ toString l.limit)

/-- Embeds class OffsetClause: `offset: int`. -/
structure OffsetClause where
  offset : Int
  deriving DecidableEq, Repr

/-- Embeds `OffsetClause.render`: the f-string `OFFSET {offset}`. -/
def OffsetClause.render (o : OffsetClause) : RenderResult :=
  .ok ("OFFSET " ++ toString o.offset)

/-- Embeds class LimitOffsetClauses: optional limit and offset clauses. -/
structure LimitOffsetClauses where
  limit_clause : Option LimitClause := none
  offset_clause : Option OffsetClause := none
  deriving DecidableEq, Repr

/-- Embeds `LimitOffsetClauses.render`: the limit clause if present, then
the offset clause if present, separated by a newline when both are. -/
def LimitOffsetClauses.render (l : LimitOffsetClauses) : RenderResult :=
  rcat
    (match l.limit_clause with
      | some c => c.render
      | none => .ok "")
    (match l.offset_clause with
      | none => .ok ""
      | some o =>
        rcat (match l.limit_clause with | some _ => lit "\n" | none => .ok "")
          o.render)

/-- Embeds class TriplesBlock: `triples: TriplesSameSubjectPath`,
`triples_block: Optional[TriplesBlock] = None`.  The source declares the
`triples` annotation with a stray `= None` default; a constructed block
carries a TriplesSameSubjectPath there. -/
inductive TriplesBlock where
  | mk (triples : TriplesSameSubjectPath) (triples_block : Option TriplesBlock)

/-- Embeds `TriplesBlock.render` for the annotated field type: `triples`
is a single TriplesSameSubjectPath (the `isinstance(self.triples, list)`
branch of the source cannot fire for the declared type), so the render
is the triples followed, when a nested block exists, by ` .`, a newline,
the nested block and a trailing newline. -/
def TriplesBlock.render : TriplesBlock → RenderResult
  | .mk t none => t.render
  | .mk t (some tb) =>
    rcat t.render (rcat (lit " .\n") (rcat tb.render (lit "\n")))

/-!
The mutually recursive knot of grammar.py: graph patterns, the SELECT
sub-query layer reachable from GroupGraphPattern, and the expression
grammar (whose EXISTS and NOT EXISTS built-ins wrap graph patterns
again).
-/

set_option maxHeartbeats 0

set_option linter.unusedTactic false

set_option linter.unreachableTactic false

mutual

/-- Embeds class GroupGraphPattern:
`content: SubSelect | GroupGraphPatternSub`. -/
inductive GroupGraphPattern where
  | sub (content : SubSelect)
  | ggps (content : GroupGraphPatternSub)

/-- Embeds class SubSelect: select clause, where clause, solution
modifier, values clause. -/
inductive SubSelect where
  | mk (select_clause : SelectClause) (where_clause : WhereClause)
      (solution_modifier : SolutionModifier) (values_clause : ValuesClause)

/-- Embeds class SelectClause (which subclasses plain BaseModel):
`distinct_or_reduced: Optional[DistinctReduced] = None`,
`variables_or_wildcard: List[Var | Tuple[Expression | Var]] | Wildcard`.
The tuple items are unpacked by the render as (expression, var) pairs,
which is how they are embedded here. -/
inductive SelectClause where
  | mk (distinct_or_reduced : Option DistinctReduced)
      (variables_or_wildcard : Sum (List (Sum Var (Expression × Var))) Wildcard)

/-- Embeds class WhereClause: `group_graph_pattern: GroupGraphPattern`. -/
inductive WhereClause where
  | mk (group_graph_pattern : GroupGraphPattern)

/-- Embeds class SolutionModifier: optional group, having, order and
limit-offset clauses (`having` is declared without a default in the
source). -/
inductive SolutionModifier where
  | mk (group_by : Option GroupClause) (having : Option HavingClause)
      (order_by : Option OrderClause) (limit_offset : Option LimitOffsetClauses)

/-- Embeds class GroupClause: `group_conditions: List[GroupCondition]`. -/
inductive GroupClause where
  | mk (group_conditions : List GroupCondition)

/-- Embeds class GroupCondition:
`condition: BuiltInCall | FunctionCall | Tuple[Expression, Var] | Var`. -/
inductive GroupCondition where
  | bic (condition : BuiltInCall)
  | fc (condition : FunctionCall)
  | exprAs (condition : Expression × Var)
  | varC (condition : Var)

/-- Embeds class HavingClause:
`having_conditions: List[HavingCondition]`. -/
inductive HavingClause where
  | mk (having_conditions : List HavingCondition)

/-- Embeds class HavingCondition: `constraint: Constraint`. -/
inductive HavingCondition where
  | mk (constraint : Constraint)

/-- Embeds class GroupGraphPatternSub (which subclasses plain BaseModel,
not SPARQLGrammarBase): `triples_blocks: List[TriplesBlock]`,
`graph_patterns_not_triples: Optional[List[GraphPatternNotTriples]] =
None`. -/
inductive GroupGraphPatternSub where
  | mk (triples_blocks : List TriplesBlock)
      (graph_patterns_not_triples : Option (List GraphPatternNotTriples))

/-- Embeds class GraphPatternNotTriples:
`content: GroupOrUnionGraphPattern | OptionalGraphPattern | Filter |
Bind | InlineData`. -/
inductive GraphPatternNotTriples where
  | gougp (content : GroupOrUnionGraphPattern)
  | opt (content : OptionalGraphPattern)
  | filt (content : Filter)
  | bindC (content : Bind)
  | inline (content : InlineData)

/-- Embeds class GroupOrUnionGraphPattern:
`group_graph_patterns: List[GroupGraphPattern]`. -/
inductive GroupOrUnionGraphPattern where
  | mk (group_graph_patterns : List GroupGraphPattern)

/-- Embeds class OptionalGraphPattern:
`group_graph_pattern: GroupGraphPattern`. -/
inductive OptionalGraphPattern where
  | mk (group_graph_pattern : GroupGraphPattern)

/-- Embeds class Filter: `constraint: Constraint`. -/
inductive Filter where
  | mk (constraint : Constraint)

/-- Embeds class Bind: `expression: Expression`, `var: Var`. -/
inductive Bind where
  | mk (expression : Expression) (var : Var)

/-- Embeds class Constraint:
`content: BrackettedExpression | BuiltInCall | FunctionCall`. -/
inductive Constraint where
  | brkt (content : BrackettedExpression)
  | bic (content : BuiltInCall)
  | fc (content : FunctionCall)

/-- Embeds class FunctionCall: `iri: iri`, `arg_list: ArgList`. -/
inductive FunctionCall where
  | mk (iri : iri) (arg_list : ArgList)

/-- Embeds class ArgList:
`expressions: Optional[NIL | List[Expression]]`,
`distinct: bool = False`. -/
inductive ArgList where
  | mk (expressions : Option (Sum NIL (List Expression))) (distinct : Bool)

/-- Embeds class ExpressionList:
`expressions: Optional[List[Expression]] = []`. -/
inductive ExpressionList where
  | mk (expressions : Option (List Expression))

/-- Embeds class Expression:
`conditional_or_expression: ConditionalOrExpression`. -/
inductive Expression where
  | mk (conditional_or_expression : ConditionalOrExpression)

/-- Embeds class ConditionalOrExpression:
`conditional_and_expressions: List[ConditionalAndExpression]`. -/
inductive ConditionalOrExpression where
  | mk (conditional_and_expressions : List ConditionalAndExpression)

/-- Embeds class ConditionalAndExpression:
`value_logicals: List[ValueLogical]`. -/
inductive ConditionalAndExpression where
  | mk (value_logicals : List ValueLogical)

/-- Embeds class ValueLogical:
`relational_expression: RelationalExpression`. -/
inductive ValueLogical where
  | mk (relational_expression : RelationalExpression)

/-- Embeds class RelationalExpression: `left: NumericExpression`,
`operator: Optional[str] = None`,
`right: Optional[NumericExpression | ExpressionList] = None`. -/
inductive RelationalExpression where
  | mk (left : NumericExpression) (operator : Option String)
      (right : Option (Sum NumericExpression ExpressionList))

/-- Embeds class NumericExpression:
`additive_expression: AdditiveExpression`. -/
inductive NumericExpression where
  | mk (additive_expression : AdditiveExpression)

/-- First component of an item of
`AdditiveExpression.additional_expressions`:
`Tuple[MultiplacativeOperator, MultiplicativeExpression] |
NumericLiteralPositive | NumericLiteralNegative`. -/
inductive AdditiveItemFirst where
  | pair (p : MultiplacativeOperator × MultiplicativeExpression)
  | pos (p : NumericLiteralPositive)
  | neg (p : NumericLiteralNegative)

/-- Embeds class AdditiveExpression:
`base_expression: MultiplicativeExpression` plus the
`additional_expressions` items, which the render unpacks as pairs of the
union first component and an optional list of
(MultiplyDivideOperators, UnaryExpression) tuples (the source annotation
spells this `List[first, second]`). -/
inductive AdditiveExpression where
  | mk (base_expression : MultiplicativeExpression)
      (additional_expressions :
        List (AdditiveItemFirst ×
          Option (List (MultiplyDivideOperators × UnaryExpression))))

/-- Embeds class MultiplicativeExpression:
`base_expression: UnaryExpression`,
`additional_expressions:
Optional[List[Tuple[MultiplacativeOperator, UnaryExpression]]] = []`
(embedded as the list, with the default empty). -/
inductive MultiplicativeExpression where
  | mk (base_expression : UnaryExpression)
      (additional_expressions : List (MultiplacativeOperator × UnaryExpression))

/-- Embeds class UnaryExpression: `operator: Optional[UnaryOperator] =
None`, `primary_expression: PrimaryExpression`. -/
inductive UnaryExpression where
  | mk (operator : Option UnaryOperator) (primary_expression : PrimaryExpression)

/-- Embeds class PrimaryExpression:
`content: BrackettedExpression | BuiltInCall | iriOrFunction |
RDFLiteral | NumericLiteral | BooleanLiteral | Var`. -/
inductive PrimaryExpression where
  | brkt (content : BrackettedExpression)
  | bic (content : BuiltInCall)
  | iriFn (content : iriOrFunction)
  | rdf (content : RDFLiteral)
  | num (content : NumericLiteral)
  | boolean (content : BooleanLiteral)
  | varC (content : Var)

/-- Embeds class BrackettedExpression: `expression: Expression`. -/
inductive BrackettedExpression where
  | mk (expression : Expression)

/-- The `function` union of class BuiltInCall:
`BuiltInCallOptions | Aggregate | SubstringExpression |
StrReplaceExpression | RegexExpression | ExistsFunc | NotExistsFunc`. -/
inductive BuiltInCallFunction where
  | opt (f : BuiltInCallOptions)
  | agg (f : Aggregate)
  | substr (f : SubstringExpression)
  | strReplace (f : StrReplaceExpression)
  | regex (f : RegexExpression)
  | existsF (f : ExistsFunc)
  | notExistsF (f : NotExistsFunc)

/-- The `arguments` union of class BuiltInCall:
`Expression | Tuple[Expression, Expression] |
Tuple[Expression, Expression, Expression] | ExpressionList | Var | NIL`. -/
inductive BuiltInCallArguments where
  | one (a : Expression)
  | two (a : Expression × Expression)
  | three (a : Expression × Expression × Expression)
  | exprList (a : ExpressionList)
  | varA (a : Var)
  | nilA (a : NIL)

/-- Embeds class BuiltInCall: the function union and the optional
arguments union. -/
inductive BuiltInCall where
  | mk (function : BuiltInCallFunction) (arguments : Option BuiltInCallArguments)

/-- Embeds class iriOrFunction: `iri: iri`,
`arg_list: Optional[ArgList] = None`. -/
inductive iriOrFunction where
  | mk (iri : iri) (arg_list : Option ArgList)

/-- Embeds class Aggregate: `function_name: AggregateOptions`,
`distinct: Optional[bool] = None`, `expression: Expression | Wildcard`,
`separator: Optional[str] = None`. -/
inductive Aggregate where
  | mk (function_name : AggregateOptions) (distinct : Option Bool)
      (expression : Sum Expression Wildcard) (separator : Option String)

/-- Embeds class SubstringExpression: source, starting location and
optional length expressions. -/
inductive SubstringExpression where
  | mk (source : Expression) (starting_loc : Expression)
      (length : Option Expression)

/-- Embeds class StrReplaceExpression: argument, pattern, replacement
and optional flags expressions. -/
inductive StrReplaceExpression where
  | mk (arg : Expression) (pattern : Expression) (replacement : Expression)
      (flags : Option Expression)

/-- Embeds class RegexExpression: text, pattern and optional flags
expressions. -/
inductive RegexExpression where
  | mk (text_expression : Expression) (pattern_expression : Expression)
      (flags_expression : Option Expression)

/-- Embeds class ExistsFunc: `group_graph_pattern: GroupGraphPattern`. -/
inductive ExistsFunc where
  | mk (group_graph_pattern : GroupGraphPattern)

/-- Embeds class NotExistsFunc:
`group_graph_pattern: GroupGraphPattern`. -/
inductive NotExistsFunc where
  | mk (group_graph_pattern : GroupGraphPattern)

end

/-- Embeds the render of GraphPatternNotTriples.  The source writes a
`def render` directly below the class, but at module level (grammar.py
line 1017 is indented at column zero), so the class itself inherits
`SPARQLGrammarBase.render`, whose body raises NotImplementedError. -/
def GraphPatternNotTriples.render (_ : GraphPatternNotTriples) : RenderResult :=
  .error .notImplementedError

mutual

def GroupGraphPattern.render : GroupGraphPattern → RenderResult
  | .sub s => rcat (lit "\x7b\n") (rcat s.render (lit "\n\x7d"))
  | .ggps g => rcat (lit "\x7b\n") (rcat g.render (lit "\n\x7d"))
termination_by x => sizeOf x
decreasing_by all_goals (simp_wf; try omega)

def SubSelect.render : SubSelect → RenderResult
  | .mk sc wc sm vc =>
    rcats [sc.render, wc.render, sm.render, vc.render]
termination_by x => sizeOf x
decreasing_by all_goals (simp_wf; try omega)

def SelectClause.render : SelectClause → RenderResult
  | .mk dor vow =>
    rcat (lit "SELECT")
      (rcat (match dor with | some d => lit d.val | none => .ok "")
        (match vow with
          | .inr w => lit w.val
          | .inl items => SelectClause.renderItems items))
termination_by x => sizeOf x
decreasing_by all_goals (simp_wf; try omega)

def SelectClause.renderItems : List (Sum Var (Expression × Var)) → RenderResult
  | [] => .ok ""
  | .inl v :: rest => rcat (lit " ") (rcat v.render (SelectClause.renderItems rest))
  | .inr (e, v) :: rest =>
    rcat (lit " (")
      (rcat e.render
        (rcat (lit " AS ") (rcat v.render (rcat (lit ")") (SelectClause.renderItems rest)))))
termination_by x => sizeOf x
decreasing_by all_goals (simp_wf; try omega)

def WhereClause.render : WhereClause → RenderResult
  | .mk g => rcat (lit "\nWHERE ") g.render
termination_by x => sizeOf x
decreasing_by all_goals (simp_wf; try omega)

def SolutionModifier.render : SolutionModifier → RenderResult
  | .mk gb _hv ob lo =>
    rcats [
      (match ob with | some o => o.render | none => .ok ""),
      (match lo with
        | some l =>
          rcat (match ob with | some _ => lit "\n" | none => .ok "") l.render
        | none => .ok ""),
      (match gb with | some g => g.render | none => .ok "")]
termination_by x => sizeOf x
decreasing_by all_goals (simp_wf; try omega)

def GroupClause.render : GroupClause → RenderResult
  | .mk cs => rcat (lit "\nGROUP BY ") (GroupClause.renderConds cs)
termination_by x => sizeOf x
decreasing_by all_goals (simp_wf; try omega)

def GroupClause.renderConds : List GroupCondition → RenderResult
  | [] => .ok ""
  | [c] => c.render
  | c :: c2 :: cs => rcat c.render (rcat (lit " ") (GroupClause.renderConds (c2 :: cs)))
termination_by x => sizeOf x
decreasing_by all_goals (simp_wf; try omega)

def GroupCondition.render : GroupCondition → RenderResult
  | .bic b => b.render
  | .fc f => f.render
  | .exprAs (e, v) =>
    rcats [lit "(", e.render, lit " AS ", v.render, lit ")"]
  | .varC v => v.render
termination_by x => sizeOf x
decreasing_by all_goals (simp_wf; try omega)

def HavingClause.render : HavingClause → RenderResult
  | .mk cs => rcat (lit "\nHAVING ") (HavingClause.renderConds cs)
termination_by x => sizeOf x
decreasing_by all_goals (simp_wf; try omega)

def HavingClause.renderConds : List HavingCondition → RenderResult
  | [] => .ok ""
  | [c] => c.render
  | c :: c2 :: cs => rcat c.render (rcat (lit " ") (HavingClause.renderConds (c2 :: cs)))
termination_by x => sizeOf x
decreasing_by all_goals (simp_wf; try omega)

def HavingCondition.render : HavingCondition → RenderResult
  | .mk c => c.render
termination_by x => sizeOf x
decreasing_by all_goals (simp_wf; try omega)

def GroupGraphPatternSub.render : GroupGraphPatternSub → RenderResult
  | .mk tbs gpnts =>
    rcat
      (match tbs with
        | [] => .ok ""
        | t :: _ => t.render)
      (match gpnts with
        | none => .ok ""
        | some [] => .ok ""
        | some (g :: gs) => GroupGraphPatternSub.renderLoop (g :: gs) (tbs.drop 1))
termination_by x => sizeOf x
decreasing_by all_goals (simp_wf; try omega)

def GroupGraphPatternSub.renderLoop :
    List GraphPatternNotTriples → List TriplesBlock → RenderResult
  | [], _ => .ok ""
  | g :: gs, [] =>
    rcat g.render (rcat (lit " .") (GroupGraphPatternSub.renderLoop gs []))
  | g :: gs, t :: ts =>
    rcat g.render
      (rcat (lit " .") (rcat t.render (GroupGraphPatternSub.renderLoop gs ts)))
termination_by x _ts => sizeOf x
decreasing_by all_goals (simp_wf; try omega)

def GroupOrUnionGraphPattern.render : GroupOrUnionGraphPattern → RenderResult
  | .mk [] => .error (.runtimeError "generator raised StopIteration")
  | .mk (g :: gs) =>
    rcat (lit "\n") (rcat g.render (GroupOrUnionGraphPattern.renderRest gs))
termination_by x => sizeOf x
decreasing_by all_goals (simp_wf; try omega)

def GroupOrUnionGraphPattern.renderRest : List GroupGraphPattern → RenderResult
  | [] => .ok ""
  | g :: gs =>
    rcat (lit "\nUNION\n") (rcat g.render (GroupOrUnionGraphPattern.renderRest gs))
termination_by x => sizeOf x
decreasing_by all_goals (simp_wf; try omega)

def OptionalGraphPattern.render : OptionalGraphPattern → RenderResult
  | .mk g => rcat (lit "\nOPTIONAL ") g.render
termination_by x => sizeOf x
decreasing_by all_goals (simp_wf; try omega)

def Filter.render : Filter → RenderResult
  | .mk c => rcat (lit "FILTER ") c.render
termination_by x => sizeOf x
decreasing_by all_goals (simp_wf; try omega)

def Bind.render : Bind → RenderResult
  | .mk e v => rcats [lit "BIND(", e.render, lit " AS ", v.render, lit ")"]
termination_by x => sizeOf x
decreasing_by all_goals (simp_wf; try omega)

def Constraint.render : Constraint → RenderResult
  | .brkt b => b.render
  | .bic b => b.render
  | .fc f => f.render
termination_by x => sizeOf x
decreasing_by all_goals (simp_wf; try omega)

def FunctionCall.render : FunctionCall → RenderResult
  | .mk i al => rcat i.render al.render
termination_by x => sizeOf x
decreasing_by all_goals (simp_wf; try omega)

def ArgList.render : ArgList → RenderResult
  | .mk (some (.inl n)) _ => n.render
  | .mk none d =>
    rcat (if d then lit "DISTINCT " else .ok "")
      (rcat (lit "(") (.error (.typeError "NoneType is not iterable")))
  | .mk (some (.inr es)) d =>
    rcat (if d then lit "DISTINCT " else .ok "")
      (rcat (lit "(") (rcat (ArgList.renderExprs es) (lit ")")))
termination_by x => sizeOf x
decreasing_by all_goals (simp_wf; try omega)

def ArgList.renderExprs : List Expression → RenderResult
  | [] => .ok ""
  | [e] => e.render
  | e :: e2 :: es => rcat e.render (rcat (lit ", ") (ArgList.renderExprs (e2 :: es)))
termination_by x => sizeOf x
decreasing_by all_goals (simp_wf; try omega)

def ExpressionList.render : ExpressionList → RenderResult
  | .mk none => lit "()"
  | .mk (some []) => lit "()"
  | .mk (some (e :: es)) =>
    rcat (lit "(") (rcat (ExpressionList.renderExprs (e :: es)) (lit ")"))
termination_by x => sizeOf x
decreasing_by all_goals (simp_wf; try omega)

def ExpressionList.renderExprs : List Expression → RenderResult
  | [] => .ok ""
  | [e] => e.render
  | e :: e2 :: es =>
    rcat e.render (rcat (lit ", ") (ExpressionList.renderExprs (e2 :: es)))
termination_by x => sizeOf x
decreasing_by all_goals (simp_wf; try omega)

def Expression.render : Expression → RenderResult
  | .mk c => c.render
termination_by x => sizeOf x
decreasing_by all_goals (simp_wf; try omega)

def ConditionalOrExpression.render : ConditionalOrExpression → RenderResult
  | .mk l => ConditionalOrExpression.renderList l
termination_by x => sizeOf x
decreasing_by all_goals (simp_wf; try omega)

def ConditionalOrExpression.renderList : List ConditionalAndExpression → RenderResult
  | [] => .ok ""
  | [c] => c.render
  | c :: c2 :: cs =>
    rcat c.render (rcat (lit " || ") (ConditionalOrExpression.renderList (c2 :: cs)))
termination_by x => sizeOf x
decreasing_by all_goals (simp_wf; try omega)

def ConditionalAndExpression.render : ConditionalAndExpression → RenderResult
  | .mk l => ConditionalAndExpression.renderList l
termination_by x => sizeOf x
decreasing_by all_goals (simp_wf; try omega)

def ConditionalAndExpression.renderList : List ValueLogical → RenderResult
  | [] => .ok ""
  | [v] => v.render
  | v :: v2 :: vs =>
    rcat v.render (rcat (lit " && ") (ConditionalAndExpression.renderList (v2 :: vs)))
termination_by x => sizeOf x
decreasing_by all_goals (simp_wf; try omega)

def ValueLogical.render : ValueLogical → RenderResult
  | .mk r => r.render
termination_by x => sizeOf x
decreasing_by all_goals (simp_wf; try omega)

def RelationalExpression.render : RelationalExpression → RenderResult
  | .mk l op r =>
    rcat l.render
      (match op with
        | none => .ok ""
        | some o =>
          if o == "" then .ok ""
          else
            rcat (lit (" " ++ o ++ " "))
              (match r with
                | none => .ok ""
                | some (.inl ne) => ne.render
                | some (.inr el) => el.render))
termination_by x => sizeOf x
decreasing_by all_goals (simp_wf; try omega)

def NumericExpression.render : NumericExpression → RenderResult
  | .mk a => a.render
termination_by x => sizeOf x
decreasing_by all_goals (simp_wf; try omega)

def AdditiveExpression.render : AdditiveExpression → RenderResult
  | .mk b adds => rcat b.render (AdditiveExpression.renderAdds adds)
termination_by x => sizeOf x
decreasing_by all_goals (simp_wf; try omega)

def AdditiveExpression.renderAdds :
    List (AdditiveItemFirst ×
      Option (List (MultiplyDivideOperators × UnaryExpression))) → RenderResult
  | [] => .ok ""
  | (.pos p, _) :: rest => rcat p.render (AdditiveExpression.renderAdds rest)
  | (.neg n, _) :: rest => rcat n.render (AdditiveExpression.renderAdds rest)
  | (.pair _, none) :: _ => .error (.typeError "NoneType is not subscriptable")
  | (.pair _, some []) :: _ => .error (.runtimeError "list index out of range")
  | (.pair _, some (_ :: _)) :: _ => .error (.attributeError "render")
termination_by x => sizeOf x
decreasing_by all_goals (simp_wf; try omega)

def MultiplicativeExpression.render : MultiplicativeExpression → RenderResult
  | .mk b adds => rcat b.render (MultiplicativeExpression.renderAdds adds)
termination_by x => sizeOf x
decreasing_by all_goals (simp_wf; try omega)

def MultiplicativeExpression.renderAdds :
    List (MultiplacativeOperator × UnaryExpression) → RenderResult
  | [] => .ok ""
  | (op, ue) :: rest =>
    rcat (lit (" " ++ op.val ++ " "))
      (rcat ue.render (MultiplicativeExpression.renderAdds rest))
termination_by x => sizeOf x
decreasing_by all_goals (simp_wf; try omega)

def UnaryExpression.render : UnaryExpression → RenderResult
  | .mk op p =>
    rcat (match op with | some o => rcat (lit o.val) (lit " ") | none => .ok "")
      p.render
termination_by x => sizeOf x
decreasing_by all_goals (simp_wf; try omega)

def PrimaryExpression.render : PrimaryExpression → RenderResult
  | .brkt c => c.render
  | .bic c => c.render
  | .iriFn c => c.render
  | .rdf c => c.render
  | .num c => c.render
  | .boolean c => c.render
  | .varC c => c.render
termination_by x => sizeOf x
decreasing_by all_goals (simp_wf; try omega)

def BrackettedExpression.render : BrackettedExpression → RenderResult
  | .mk e => rcat (lit "(") (rcat e.render (lit ")"))
termination_by x => sizeOf x
decreasing_by all_goals (simp_wf; try omega)

def BuiltInCall.render : BuiltInCall → RenderResult
  | .mk f args =>
    rcat
      (match f with
        | .opt o => lit o.val
        | .agg a => a.render
        | .substr s => s.render
        | .strReplace s => s.render
        | .regex r => r.render
        | .existsF e => e.render
        | .notExistsF n => n.render)
      (match args with
        | none => .ok ""
        | some (.one _) => rcat (lit "(") (.error (.attributeError "render"))
        | some (.two (e1, e2)) =>
          rcats [lit "(", e1.render, lit ", ", lit ")", lit "(", e2.render, lit ")"]
        | some (.three (e1, e2, e3)) =>
          rcats [lit "(", e1.render, lit ", ", lit ")", lit "(", e2.render,
            lit ", ", lit ")", lit "(", e3.render, lit ")"]
        | some (.exprList _) => rcat (lit "(") (.error (.attributeError "render"))
        | some (.varA _) => rcat (lit "(") (.error (.attributeError "render"))
        | some (.nilA _) => rcat (lit "(") (.error (.attributeError "render")))
termination_by x => sizeOf x
decreasing_by all_goals (simp_wf; try omega)

def iriOrFunction.render : iriOrFunction → RenderResult
  | .mk i al =>
    rcat i.render (match al with | some a => a.render | none => .ok "")
termination_by x => sizeOf x
decreasing_by all_goals (simp_wf; try omega)

def Aggregate.render : Aggregate → RenderResult
  | .mk fn d e sep =>
    rcats [lit (fn.pyStr ++ "("),
      (match d with | some true => lit "DISTINCT " | _ => .ok ""),
      (match e with
        | .inr w => lit w.val
        | .inl ex => ex.render),
      (match sep with
        | some s => if s == "" then .ok "" else lit (" ; SEPARATOR=\x27" ++ s ++ "\x27")
        | none => .ok ""),
      lit ")"]
termination_by x => sizeOf x
decreasing_by all_goals (simp_wf; try omega)

def SubstringExpression.render : SubstringExpression → RenderResult
  | .mk src start len =>
    rcats [lit "SUBSTR(", src.render, lit ", ", start.render,
      (match len with | some l => rcat (lit ", ") l.render | none => .ok ""),
      lit ")"]
termination_by x => sizeOf x
decreasing_by all_goals (simp_wf; try omega)

def StrReplaceExpression.render : StrReplaceExpression → RenderResult
  | .mk a p r f =>
    rcats [lit "REPLACE(", a.render, lit ", ", p.render, lit ", ", r.render,
      (match f with | some fl => rcat (lit ", ") fl.render | none => .ok ""),
      lit ")"]
termination_by x => sizeOf x
decreasing_by all_goals (simp_wf; try omega)

def RegexExpression.render : RegexExpression → RenderResult
  | .mk t p f =>
    rcats [lit "REGEX(", t.render, lit ", ", p.render,
      (match f with | some fl => rcat (lit ", ") fl.render | none => .ok ""),
      lit ")"]
termination_by x => sizeOf x
decreasing_by all_goals (simp_wf; try omega)

def ExistsFunc.render : ExistsFunc → RenderResult
  | .mk g => rcat (lit "EXISTS") g.render
termination_by x => sizeOf x
decreasing_by all_goals (simp_wf; try omega)

def NotExistsFunc.render : NotExistsFunc → RenderResult
  | .mk g => rcat (lit "NOT EXISTS") g.render
termination_by x => sizeOf x
decreasing_by all_goals (simp_wf; try omega)

end

/-- Embeds the module-level function `render` of grammar.py (lines
1017-1019), the body that was clearly meant to be the render method of
GraphPatternNotTriples: a newline, then the content render. -/
def GraphPatternNotTriples.module_level_render (g : GraphPatternNotTriples) :
    RenderResult :=
  rcat (lit "\n")
    (match g with
      | .gougp c => c.render
      | .opt c => c.render
      | .filt c => c.render
      | .bindC c => c.render
      | .inline c => c.render)

/-!
The `collect_triples` traversal.  The source defines one reflective
method on SPARQLGrammarBase (grammar.py lines 37-66): it walks the
declared fields in order; a field holding a TriplesSameSubjectPath is
collected; a field holding a list is walked element-wise, collecting
TriplesSameSubjectPath elements and recursing into elements that are
SPARQLGrammarBase instances; a field holding a SPARQLGrammarBase
instance is recursed into; everything else (terminals, enums, strings,
booleans, None and tuples, and instances of the three classes that
subclass plain BaseModel: SelectClause, Quads, GroupGraphPatternSub) is
skipped.  The collected list is deduplicated through `list(set(...))`
before being returned.  Below the method is translated class by class,
following each class's field order.
-/

/-- Collect on a Var: its only field is a terminal, so nothing is
collected. -/
def Var.collect_triples (_ : Var) : List TriplesSameSubjectPath := pydedup []

/-- Collect on a PrefixedName: its only field is a terminal. -/
def PrefixedName.collect_triples (_ : PrefixedName) :
    List TriplesSameSubjectPath := pydedup []

/-- Collect on an iri: an IRIREF value is a terminal (skipped), a
PrefixedName value is recursed into. -/
def iri.collect_triples (i : iri) : List TriplesSameSubjectPath :=
  pydedup
    (match i.value with
      | .inl _ => []
      | .inr p => p.collect_triples)

/-- Collect on a String node: its only field is a terminal. -/
def SG_String.collect_triples (_ : SG_String) :
    List TriplesSameSubjectPath := pydedup []

/-- Collect on an RDFLiteral: recurses into the String value and the
optional datatype iri; the optional langtag is a terminal. -/
def RDFLiteral.collect_triples (r : RDFLiteral) : List TriplesSameSubjectPath :=
  pydedup
    (r.value.collect_triples ++
      (match r.datatype with
        | some d => d.collect_triples
        | none => []))

/-- Collect on a NumericLiteralUnsigned: terminal field only. -/
def NumericLiteralUnsigned.collect_triples (_ : NumericLiteralUnsigned) :
    List TriplesSameSubjectPath := pydedup []

/-- Collect on a NumericLiteralPositive: terminal field only. -/
def NumericLiteralPositive.collect_triples (_ : NumericLiteralPositive) :
    List TriplesSameSubjectPath := pydedup []

/-- Collect on a NumericLiteralNegative: terminal field only. -/
def NumericLiteralNegative.collect_triples (_ : NumericLiteralNegative) :
    List TriplesSameSubjectPath := pydedup []

/-- Collect on a NumericLiteral: recurses into the wrapped literal. -/
def NumericLiteral.collect_triples : NumericLiteral → List TriplesSameSubjectPath
  | .unsigned v => pydedup v.collect_triples
  | .positive v => pydedup v.collect_triples
  | .negative v => pydedup v.collect_triples

/-- Collect on a BooleanLiteral: enum field only. -/
def BooleanLiteral.collect_triples (_ : BooleanLiteral) :
    List TriplesSameSubjectPath := pydedup []

/-- Collect on a DataBlockValue: recurses into the wrapped node; the
UndefEnum member is skipped. -/
def DataBlockValue.collect_triples : DataBlockValue → List TriplesSameSubjectPath
  | .iriV v => pydedup v.collect_triples
  | .rdf v => pydedup v.collect_triples
  | .num v => pydedup v.collect_triples
  | .boolean v => pydedup v.collect_triples
  | .undef _ => pydedup []

/-- Collect over a list of DataBlockValue elements. -/
def DataBlockValue.collectList : List DataBlockValue → List TriplesSameSubjectPath
  | [] => []
  | v :: vs => v.collect_triples ++ DataBlockValue.collectList vs

/-- Collect on an InlineDataOneVar: the variable, then every data block
value. -/
def InlineDataOneVar.collect_triples (d : InlineDataOneVar) :
    List TriplesSameSubjectPath :=
  pydedup (d.variable_.collect_triples ++ DataBlockValue.collectList d.datablockvalues)

/-- Collect over a list of Var elements. -/
def Var.collectList : List Var → List TriplesSameSubjectPath
  | [] => []
  | v :: vs => v.collect_triples ++ Var.collectList vs

/-- Collect on an InlineDataFull: a NIL `vars` value is a terminal
(skipped), a list of variables is walked; the `datablocks` list holds
inner lists and NIL values, neither of which is a TriplesSameSubjectPath
or a SPARQLGrammarBase instance, so the whole field contributes
nothing. -/
def InlineDataFull.collect_triples (d : InlineDataFull) :
    List TriplesSameSubjectPath :=
  pydedup
    (match d.vars with
      | .inl _ => []
      | .inr vs => Var.collectList vs)

/-- Collect on a DataBlock: recurses into the block. -/
def DataBlock.collect_triples (d : DataBlock) : List TriplesSameSubjectPath :=
  pydedup
    (match d.block with
      | .inl b => b.collect_triples
      | .inr b => b.collect_triples)

/-- Collect on an InlineData: recurses into the data block. -/
def InlineData.collect_triples (d : InlineData) : List TriplesSameSubjectPath :=
  pydedup d.data_block.collect_triples

/-- Collect on a ValuesClause: recurses into the optional data block. -/
def ValuesClause.collect_triples (v : ValuesClause) : List TriplesSameSubjectPath :=
  pydedup
    (match v.data_block with
      | some d => d.collect_triples
      | none => [])

/-- Collect on an OrderCondition: the variable; the direction string is
skipped. -/
def OrderCondition.collect_triples (c : OrderCondition) :
    List TriplesSameSubjectPath :=
  pydedup c.var.collect_triples

/-- Collect over a list of OrderCondition elements. -/
def OrderCondition.collectList : List OrderCondition → List TriplesSameSubjectPath
  | [] => []
  | c :: cs => c.collect_triples ++ OrderCondition.collectList cs

/-- Collect on an OrderClause: every condition. -/
def OrderClause.collect_triples (o : OrderClause) : List TriplesSameSubjectPath :=
  pydedup (OrderCondition.collectList o.conditions)

/-- Collect on a LimitClause: integer field only. -/
def LimitClause.collect_triples (_ : LimitClause) :
    List TriplesSameSubjectPath := pydedup []

/-- Collect on an OffsetClause: integer field only. -/
def OffsetClause.collect_triples (_ : OffsetClause) :
    List TriplesSameSubjectPath := pydedup []

/-- Collect on a LimitOffsetClauses: both optional clauses. -/
def LimitOffsetClauses.collect_triples (l : LimitOffsetClauses) :
    List TriplesSameSubjectPath :=
  pydedup
    ((match l.limit_clause with
      | some c => c.collect_triples
      | none => []) ++
      (match l.offset_clause with
        | some c => c.collect_triples
        | none => []))

/-- Collect on a TriplesBlock: the `triples` field holds a
TriplesSameSubjectPath, which is collected itself (no recursion into
it); the nested block is recursed into. -/
def TriplesBlock.collect_triples : TriplesBlock → List TriplesSameSubjectPath
  | .mk t none => pydedup [t]
  | .mk t (some tb) => pydedup ([t] ++ tb.collect_triples)

mutual

/-- Collect on a GroupGraphPattern.  A SubSelect content is a
SPARQLGrammarBase instance and is recursed into; a GroupGraphPatternSub
content subclasses plain BaseModel, fails the isinstance check, and is
skipped, so nothing under it is ever collected. -/
def GroupGraphPattern.collect_triples : GroupGraphPattern → List TriplesSameSubjectPath
  | .sub s => pydedup s.collect_triples
  | .ggps _ => pydedup []
termination_by x => sizeOf x
decreasing_by all_goals (simp_wf; try omega)

/-- Collect on a SubSelect: the select clause subclasses plain BaseModel
and is skipped; the where clause, solution modifier and values clause
are recursed into. -/
def SubSelect.collect_triples : SubSelect → List TriplesSameSubjectPath
  | .mk _ wc sm vc =>
    pydedup (wc.collect_triples ++ sm.collect_triples ++ vc.collect_triples)
termination_by x => sizeOf x
decreasing_by all_goals (simp_wf; try omega)

/-- Collect on a WhereClause: recurses into the group graph pattern. -/
def WhereClause.collect_triples : WhereClause → List TriplesSameSubjectPath
  | .mk g => pydedup g.collect_triples
termination_by x => sizeOf x
decreasing_by all_goals (simp_wf; try omega)

/-- Collect on a SolutionModifier: recurses into the four optional
clauses in field order. -/
def SolutionModifier.collect_triples : SolutionModifier → List TriplesSameSubjectPath
  | .mk gb hv ob lo =>
    pydedup
      ((match gb with
        | some g => g.collect_triples
        | none => []) ++
        (match hv with
          | some h => h.collect_triples
          | none => []) ++
        (match ob with
          | some o => o.collect_triples
          | none => []) ++
        (match lo with
          | some l => l.collect_triples
          | none => []))
termination_by x => sizeOf x
decreasing_by all_goals (simp_wf; try omega)

/-- Collect on a GroupClause: every group condition. -/
def GroupClause.collect_triples : GroupClause → List TriplesSameSubjectPath
  | .mk cs => pydedup (GroupClause.collectConds cs)
termination_by x => sizeOf x
decreasing_by all_goals (simp_wf; try omega)

/-- Collect over a list of GroupCondition elements. -/
def GroupClause.collectConds : List GroupCondition → List TriplesSameSubjectPath
  | [] => []
  | c :: cs => c.collect_triples ++ GroupClause.collectConds cs
termination_by x => sizeOf x
decreasing_by all_goals (simp_wf; try omega)

/-- Collect on a GroupCondition: BuiltInCall, FunctionCall and Var
contents are recursed into; the (Expression, Var) tuple is neither a
list nor a SPARQLGrammarBase instance and is skipped. -/
def GroupCondition.collect_triples : GroupCondition → List TriplesSameSubjectPath
  | .bic b => pydedup b.collect_triples
  | .fc f => pydedup f.collect_triples
  | .exprAs _ => pydedup []
  | .varC v => pydedup v.collect_triples
termination_by x => sizeOf x
decreasing_by all_goals (simp_wf; try omega)

/-- Collect on a HavingClause: every having condition. -/
def HavingClause.collect_triples : HavingClause → List TriplesSameSubjectPath
  | .mk cs => pydedup (HavingClause.collectConds cs)
termination_by x => sizeOf x
decreasing_by all_goals (simp_wf; try omega)

/-- Collect over a list of HavingCondition elements. -/
def HavingClause.collectConds : List HavingCondition → List TriplesSameSubjectPath
  | [] => []
  | c :: cs => c.collect_triples ++ HavingClause.collectConds cs
termination_by x => sizeOf x
decreasing_by all_goals (simp_wf; try omega)

/-- Collect on a HavingCondition: recurses into the constraint. -/
def HavingCondition.collect_triples : HavingCondition → List TriplesSameSubjectPath
  | .mk c => pydedup c.collect_triples
termination_by x => sizeOf x
decreasing_by all_goals (simp_wf; try omega)

/-- Collect on a GraphPatternNotTriples: recurses into the content. -/
def GraphPatternNotTriples.collect_triples :
    GraphPatternNotTriples → List TriplesSameSubjectPath
  | .gougp c => pydedup c.collect_triples
  | .opt c => pydedup c.collect_triples
  | .filt c => pydedup c.collect_triples
  | .bindC c => pydedup c.collect_triples
  | .inline c => pydedup c.collect_triples
termination_by x => sizeOf x
decreasing_by all_goals (simp_wf; try omega)

/-- Collect on a GroupOrUnionGraphPattern: every group graph pattern. -/
def GroupOrUnionGraphPattern.collect_triples :
    GroupOrUnionGraphPattern → List TriplesSameSubjectPath
  | .mk gs => pydedup (GroupOrUnionGraphPattern.collectList gs)
termination_by x => sizeOf x
decreasing_by all_goals (simp_wf; try omega)

/-- Collect over a list of GroupGraphPattern elements. -/
def GroupOrUnionGraphPattern.collectList :
    List GroupGraphPattern → List TriplesSameSubjectPath
  | [] => []
  | g :: gs => g.collect_triples ++ GroupOrUnionGraphPattern.collectList gs
termination_by x => sizeOf x
decreasing_by all_goals (simp_wf; try omega)

/-- Collect on an OptionalGraphPattern: recurses into the wrapped group
graph pattern. -/
def OptionalGraphPattern.collect_triples :
    OptionalGraphPattern → List TriplesSameSubjectPath
  | .mk g => pydedup g.collect_triples
termination_by x => sizeOf x
decreasing_by all_goals (simp_wf; try omega)

/-- Collect on a Filter: recurses into the constraint. -/
def Filter.collect_triples : Filter → List TriplesSameSubjectPath
  | .mk c => pydedup c.collect_triples
termination_by x => sizeOf x
decreasing_by all_goals (simp_wf; try omega)

/-- Collect on a Bind: the expression then the variable. -/
def Bind.collect_triples : Bind → List TriplesSameSubjectPath
  | .mk e v => pydedup (e.collect_triples ++ v.collect_triples)
termination_by x => sizeOf x
decreasing_by all_goals (simp_wf; try omega)

/-- Collect on a Constraint: recurses into the content. -/
def Constraint.collect_triples : Constraint → List TriplesSameSubjectPath
  | .brkt b => pydedup b.collect_triples
  | .bic b => pydedup b.collect_triples
  | .fc f => pydedup f.collect_triples
termination_by x => sizeOf x
decreasing_by all_goals (simp_wf; try omega)

/-- Collect on a FunctionCall: the iri then the argument list. -/
def FunctionCall.collect_triples : FunctionCall → List TriplesSameSubjectPath
  | .mk i al => pydedup (i.collect_triples ++ al.collect_triples)
termination_by x => sizeOf x
decreasing_by all_goals (simp_wf; try omega)

/-- Collect on an ArgList: a NIL value is a terminal (skipped), a list
of expressions is walked element-wise; the distinct flag is skipped. -/
def ArgList.collect_triples : ArgList → List TriplesSameSubjectPath
  | .mk none _ => pydedup []
  | .mk (some (.inl _)) _ => pydedup []
  | .mk (some (.inr es)) _ => pydedup (ArgList.collectExprs es)
termination_by x => sizeOf x
decreasing_by all_goals (simp_wf; try omega)

/-- Collect over a list of Expression elements (ArgList). -/
def ArgList.collectExprs : List Expression → List TriplesSameSubjectPath
  | [] => []
  | e :: es => e.collect_triples ++ ArgList.collectExprs es
termination_by x => sizeOf x
decreasing_by all_goals (simp_wf; try omega)

/-- Collect on an ExpressionList: the optional expression list is walked
element-wise. -/
def ExpressionList.collect_triples : ExpressionList → List TriplesSameSubjectPath
  | .mk none => pydedup []
  | .mk (some es) => pydedup (ExpressionList.collectExprs es)
termination_by x => sizeOf x
decreasing_by all_goals (simp_wf; try omega)

/-- Collect over a list of Expression elements (ExpressionList). -/
def ExpressionList.collectExprs : List Expression → List TriplesSameSubjectPath
  | [] => []
  | e :: es => e.collect_triples ++ ExpressionList.collectExprs es
termination_by x => sizeOf x
decreasing_by all_goals (simp_wf; try omega)

/-- Collect on an Expression: recurses into the conditional-or
expression. -/
def Expression.collect_triples : Expression → List TriplesSameSubjectPath
  | .mk c => pydedup c.collect_triples
termination_by x => sizeOf x
decreasing_by all_goals (simp_wf; try omega)

/-- Collect on a ConditionalOrExpression: every conditional-and
expression. -/
def ConditionalOrExpression.collect_triples :
    ConditionalOrExpression → List TriplesSameSubjectPath
  | .mk l => pydedup (ConditionalOrExpression.collectList l)
termination_by x => sizeOf x
decreasing_by all_goals (simp_wf; try omega)

/-- Collect over a list of ConditionalAndExpression elements. -/
def ConditionalOrExpression.collectList :
    List ConditionalAndExpression → List TriplesSameSubjectPath
  | [] => []
  | c :: cs => c.collect_triples ++ ConditionalOrExpression.collectList cs
termination_by x => sizeOf x
decreasing_by all_goals (simp_wf; try omega)

/-- Collect on a ConditionalAndExpression: every value logical. -/
def ConditionalAndExpression.collect_triples :
    ConditionalAndExpression → List TriplesSameSubjectPath
  | .mk l => pydedup (ConditionalAndExpression.collectList l)
termination_by x => sizeOf x
decreasing_by all_goals (simp_wf; try omega)

/-- Collect over a list of ValueLogical elements. -/
def ConditionalAndExpression.collectList :
    List ValueLogical → List TriplesSameSubjectPath
  | [] => []
  | v :: vs => v.collect_triples ++ ConditionalAndExpression.collectList vs
termination_by x => sizeOf x
decreasing_by all_goals (simp_wf; try omega)

/-- Collect on a ValueLogical: recurses into the relational
expression. -/
def ValueLogical.collect_triples : ValueLogical → List TriplesSameSubjectPath
  | .mk r => pydedup r.collect_triples
termination_by x => sizeOf x
decreasing_by all_goals (simp_wf; try omega)

/-- Collect on a RelationalExpression: the left side, the operator
string is skipped, then the optional right side. -/
def RelationalExpression.collect_triples :
    RelationalExpression → List TriplesSameSubjectPath
  | .mk l _ r =>
    pydedup
      (l.collect_triples ++
        (match r with
          | none => []
          | some (.inl ne) => ne.collect_triples
          | some (.inr el) => el.collect_triples))
termination_by x => sizeOf x
decreasing_by all_goals (simp_wf; try omega)

/-- Collect on a NumericExpression: recurses into the additive
expression. -/
def NumericExpression.collect_triples :
    NumericExpression → List TriplesSameSubjectPath
  | .mk a => pydedup a.collect_triples
termination_by x => sizeOf x
decreasing_by all_goals (simp_wf; try omega)

/-- Collect on an AdditiveExpression: the base expression; the
additional items are tuples, which the traversal skips. -/
def AdditiveExpression.collect_triples :
    AdditiveExpression → List TriplesSameSubjectPath
  | .mk b _ => pydedup b.collect_triples
termination_by x => sizeOf x
decreasing_by all_goals (simp_wf; try omega)

/-- Collect on a MultiplicativeExpression: the base expression; the
additional items are tuples, which the traversal skips. -/
def MultiplicativeExpression.collect_triples :
    MultiplicativeExpression → List TriplesSameSubjectPath
  | .mk b _ => pydedup b.collect_triples
termination_by x => sizeOf x
decreasing_by all_goals (simp_wf; try omega)

/-- Collect on a UnaryExpression: the operator enum is skipped; the
primary expression is recursed into. -/
def UnaryExpression.collect_triples :
    UnaryExpression → List TriplesSameSubjectPath
  | .mk _ p => pydedup p.collect_triples
termination_by x => sizeOf x
decreasing_by all_goals (simp_wf; try omega)

/-- Collect on a PrimaryExpression: recurses into the content. -/
def PrimaryExpression.collect_triples :
    PrimaryExpression → List TriplesSameSubjectPath
  | .brkt c => pydedup c.collect_triples
  | .bic c => pydedup c.collect_triples
  | .iriFn c => pydedup c.collect_triples
  | .rdf c => pydedup c.collect_triples
  | .num c => pydedup c.collect_triples
  | .boolean c => pydedup c.collect_triples
  | .varC c => pydedup c.collect_triples
termination_by x => sizeOf x
decreasing_by all_goals (simp_wf; try omega)

/-- Collect on a BrackettedExpression: recurses into the expression. -/
def BrackettedExpression.collect_triples :
    BrackettedExpression → List TriplesSameSubjectPath
  | .mk e => pydedup e.collect_triples
termination_by x => sizeOf x
decreasing_by all_goals (simp_wf; try omega)

/-- Collect on a BuiltInCall: the function when it is a node (the
BuiltInCallOptions enum is skipped), then the arguments: a single
Expression, an ExpressionList or a Var is recursed into; tuples and NIL
are skipped. -/
def BuiltInCall.collect_triples : BuiltInCall → List TriplesSameSubjectPath
  | .mk f args =>
    pydedup
      ((match f with
        | .opt _ => []
        | .agg a => a.collect_triples
        | .substr s => s.collect_triples
        | .strReplace s => s.collect_triples
        | .regex r => r.collect_triples
        | .existsF e => e.collect_triples
        | .notExistsF n => n.collect_triples) ++
        (match args with
          | none => []
          | some (.one e) => e.collect_triples
          | some (.two _) => []
          | some (.three _) => []
          | some (.exprList el) => el.collect_triples
          | some (.varA v) => v.collect_triples
          | some (.nilA _) => []))
termination_by x => sizeOf x
decreasing_by all_goals (simp_wf; try omega)

/-- Collect on an iriOrFunction: the iri then the optional argument
list. -/
def iriOrFunction.collect_triples : iriOrFunction → List TriplesSameSubjectPath
  | .mk i al =>
    pydedup
      (i.collect_triples ++
        (match al with
          | some a => a.collect_triples
          | none => []))
termination_by x => sizeOf x
decreasing_by all_goals (simp_wf; try omega)

/-- Collect on an Aggregate: only an Expression value of the
`expression` field is recursed into. -/
def Aggregate.collect_triples : Aggregate → List TriplesSameSubjectPath
  | .mk _ _ (.inl e) _ => pydedup e.collect_triples
  | .mk _ _ (.inr _) _ => pydedup []
termination_by x => sizeOf x
decreasing_by all_goals (simp_wf; try omega)

/-- Collect on a SubstringExpression: source, starting location and
optional length. -/
def SubstringExpression.collect_triples :
    SubstringExpression → List TriplesSameSubjectPath
  | .mk s st len =>
    pydedup
      (s.collect_triples ++ st.collect_triples ++
        (match len with
          | some l => l.collect_triples
          | none => []))
termination_by x => sizeOf x
decreasing_by all_goals (simp_wf; try omega)

/-- Collect on a StrReplaceExpression: argument, pattern, replacement
and optional flags. -/
def StrReplaceExpression.collect_triples :
    StrReplaceExpression → List TriplesSameSubjectPath
  | .mk a p r f =>
    pydedup
      (a.collect_triples ++ p.collect_triples ++ r.collect_triples ++
        (match f with
          | some fl => fl.collect_triples
          | none => []))
termination_by x => sizeOf x
decreasing_by all_goals (simp_wf; try omega)

/-- Collect on a RegexExpression: text, pattern and optional flags. -/
def RegexExpression.collect_triples :
    RegexExpression → List TriplesSameSubjectPath
  | .mk t p f =>
    pydedup
      (t.collect_triples ++ p.collect_triples ++
        (match f with
          | some fl => fl.collect_triples
          | none => []))
termination_by x => sizeOf x
decreasing_by all_goals (simp_wf; try omega)

/-- Collect on an ExistsFunc: recurses into the group graph pattern. -/
def ExistsFunc.collect_triples : ExistsFunc → List TriplesSameSubjectPath
  | .mk g => pydedup g.collect_triples
termination_by x => sizeOf x
decreasing_by all_goals (simp_wf; try omega)

/-- Collect on a NotExistsFunc: recurses into the group graph pattern. -/
def NotExistsFunc.collect_triples : NotExistsFunc → List TriplesSameSubjectPath
  | .mk g => pydedup g.collect_triples
termination_by x => sizeOf x
decreasing_by all_goals (simp_wf; try omega)

end

/-!
Construction-time validators and builder helpers.
-/

/-- Embeds `GroupGraphPatternSub.validate_blocks_and_patterns`, the
`model_validator` pydantic runs on every construction.  As in Quads, the
source computes `gpnt_len = len(self.graph_patterns_not_triples)` before
any check, so a `None` value (the field default) raises TypeError;
afterwards fewer than one TriplesBlock, or more than one TriplesBlock
with fewer than N-1 GraphPatternNotTriples, raises ValueError (surfaced
by pydantic as a ValidationError). -/
def GroupGraphPatternSub.validate_blocks_and_patterns
    (tbs : List TriplesBlock) (gpnts : Option (List GraphPatternNotTriples)) :
    Except PyErr Unit :=
  match pyLen gpnts with
  | .error e => .error e
  | .ok gpnt_len =>
    if tbs.length < 1 then
      .error (.valueError "There must be at least one TriplesBlock")
    else if tbs.length > 1 ∧ gpnt_len < tbs.length - 1 then
      .error (.valueError
        "When there is more than one TriplesBlock there must be at least N-1 GraphPatternNotTriples")
    else .ok ()

/-- Construction of a GroupGraphPatternSub value: pydantic builds the
instance and then runs the model validator, so construction succeeds
exactly when the validator does. -/
def GroupGraphPatternSub.construct (tbs : List TriplesBlock)
    (gpnts : Option (List GraphPatternNotTriples)) :
    Except PyErr GroupGraphPatternSub :=
  match GroupGraphPatternSub.validate_blocks_and_patterns tbs gpnts with
  | .error e => .error e
  | .ok _ => .ok (GroupGraphPatternSub.mk tbs gpnts)

/-- Embeds `Expression.from_primary_expression`: wraps a
PrimaryExpression in the singleton chain UnaryExpression,
MultiplicativeExpression, AdditiveExpression, NumericExpression,
RelationalExpression (no operator), ValueLogical,
ConditionalAndExpression, ConditionalOrExpression, Expression. -/
def Expression.from_primary_expression (p : PrimaryExpression) : Expression :=
  Expression.mk (ConditionalOrExpression.mk [ConditionalAndExpression.mk
    [ValueLogical.mk (RelationalExpression.mk (NumericExpression.mk
      (AdditiveExpression.mk
        (MultiplicativeExpression.mk (UnaryExpression.mk none p) []) []))
      none none)]])

/-- Embeds `Filter.filter_relational` (grammar.py lines 1227-1280).  The
focus is wrapped in a NumericExpression chain; a single PrimaryExpression
comparator asserts that the operator is not IN or NOT IN and becomes a
NumericExpression right side; a list of comparators asserts that the
operator is IN or NOT IN (the bare assert carries no message) and
becomes an ExpressionList of wrapped comparators; the
RelationalExpression is then wrapped through ValueLogical,
ConditionalAndExpression, ConditionalOrExpression, Expression,
BrackettedExpression, Constraint into a Filter. -/
def Filter.filter_relational (focus : PrimaryExpression)
    (comparators : Sum PrimaryExpression (List PrimaryExpression))
    (operator : String) : Except PyErr Filter :=
  let numeric_left := NumericExpression.mk (AdditiveExpression.mk
    (MultiplicativeExpression.mk (UnaryExpression.mk none focus) []) [])
  let build := fun (rhs : Sum NumericExpression ExpressionList) =>
    Filter.mk (Constraint.brkt (BrackettedExpression.mk (Expression.mk
      (ConditionalOrExpression.mk [ConditionalAndExpression.mk
        [ValueLogical.mk
          (RelationalExpression.mk numeric_left (some operator) (some rhs))]]))))
  match comparators with
  | .inl c =>
    if operator == "IN" || operator == "NOT IN" then
      .error (.assertionError
        "an ExpressionList must be supplied for \x27IN\x27 or \x27NOT IN\x27")
    else
      .ok (build (.inl (NumericExpression.mk (AdditiveExpression.mk
        (MultiplicativeExpression.mk (UnaryExpression.mk none c) []) []))))
  | .inr lst =>
    if operator == "IN" || operator == "NOT IN" then
      .ok (build (.inr (ExpressionList.mk
        (some (lst.map Expression.from_primary_expression)))))
    else .error (.assertionError "")

/-- Embeds the class attribute lookup `cls.function_name` performed by
the two field validators of Aggregate.  `function_name` is declared only
as an annotated pydantic field: pydantic collects it into
`model_fields` and the class object carries no attribute of that name,
so the lookup raises AttributeError (and even if it returned something,
it would be the field descriptor, never the string the validators
compare against — the validators read the class, not the instance). -/
def Aggregate.clsFunctionName : Except PyErr String :=
  .error (.attributeError "function_name")

/-- Embeds `Aggregate.validate_expression`: for a Wildcard value the
source evaluates `cls.function_name != "COUNT"`, whose class attribute
lookup fails for every instance; a non-Wildcard expression passes
through untouched. -/
def Aggregate.validate_expression (v : Sum Expression Wildcard) :
    Except PyErr (Sum Expression Wildcard) :=
  match v with
  | .inl _ => .ok v
  | .inr _ =>
    match Aggregate.clsFunctionName with
    | .error e => .error e
    | .ok fn =>
      if fn != "COUNT" then
        .error (.valueError "the asterisk can only be used for COUNT")
      else .ok v

/-- Embeds `Aggregate.validate_separator`: the source evaluates
`cls.function_name != "GROUP_CONCAT"` whenever the validator runs,
and the class attribute lookup fails for every instance. -/
def Aggregate.validate_separator (v : String) : Except PyErr String :=
  match Aggregate.clsFunctionName with
  | .error e => .error e
  | .ok fn =>
    if fn != "GROUP_CONCAT" then
      .error (.valueError "SEPARATOR can only be used for GROUP_CONCAT")
    else .ok v

/-- Construction of an Aggregate value: pydantic validates the provided
fields with the two field validators above.  `validate_expression` runs
on the required `expression` field of every construction;
`validate_separator` runs when a separator value is supplied (an
omitted field keeps its `None` default without validation). -/
def Aggregate.construct (function_name : AggregateOptions)
    (distinct : Option Bool) (expression : Sum Expression Wildcard)
    (separator : Option String) : Except PyErr Aggregate :=
  match Aggregate.validate_expression expression with
  | .error e => .error e
  | .ok e =>
    match separator with
    | none => .ok (Aggregate.mk function_name distinct e none)
    | some s =>
      match Aggregate.validate_separator s with
      | .error err => .error err
      | .ok s2 => .ok (Aggregate.mk function_name distinct e (some s2))


/-!
Small concrete fixtures used by the theorems below.
-/

/-- A concrete variable `?s`. -/
def exampleVar : Var := ⟨.inl ⟨"s"⟩⟩

/-- A concrete TriplesSameSubject (`?s a ?s`). -/
def exampleTSS : TriplesSameSubject :=
  .votPlne (⟨.inl exampleVar⟩, PropertyListNotEmpty.mk
    [(Verb.mk (.inr .A), ObjectList.mk [Object.mk (GraphNode.vot ⟨.inl exampleVar⟩)])])

/-- A concrete TriplesTemplate wrapping `exampleTSS`. -/
def exampleTT : TriplesTemplate := .mk exampleTSS none

/-- A concrete QuadsNotTriples over graph `?s`. -/
def exampleQNT : QuadsNotTriples := ⟨⟨.inl exampleVar⟩, none⟩

/-- A concrete TriplesSameSubjectPath, built with the `from_spo` helper
from the triple `?s ?p ?o`. -/
def exampleTSSP : TriplesSameSubjectPath :=
  TriplesSameSubjectPath.from_spo (.inl ⟨.inl ⟨"s"⟩⟩) (.inl ⟨.inl ⟨"p"⟩⟩)
    (.inl ⟨.inl ⟨"o"⟩⟩)

/-- A concrete TriplesBlock wrapping `exampleTSSP`. -/
def exampleTB : TriplesBlock := .mk exampleTSSP none

/-- A concrete GraphPatternNotTriples holding a BIND. -/
def exampleGPNT : GraphPatternNotTriples :=
  .bindC (Bind.mk (Expression.from_primary_expression (.varC exampleVar)) exampleVar)

/-!
Theorems.  General lemmas about the rendering combinators first, then
one theorem per claim of the specification review, with witnesses and
counterexamples where called for.
-/

@[simp]
theorem rcat_ok_ok (a b : String) : rcat (.ok a) (.ok b) = .ok (a ++ b) := rfl

@[simp]
theorem rcat_error (e : PyErr) (r : RenderResult) :
    rcat (.error e) r = .error e := rfl

@[simp]
theorem rcat_ok_error (a : String) (e : PyErr) :
    rcat (.ok a) (.error e) = .error e := rfl

@[simp]
theorem rcats_nil : rcats [] = .ok "" := rfl

@[simp]
theorem rcats_cons (r : RenderResult) (rs : List RenderResult) :
    rcats (r :: rs) = rcat r (rcats rs) := rfl

/-- Rendered pieces joined by a literal separator, as the source does with
its `for` loops that emit a separator before every element but the first.
The empty list is not produced by those loops; it maps to the empty
rendering. -/
def rjoin (sep : String) : List RenderResult → RenderResult
  | [] => .ok ""
  | [r] => r
  | r :: rs => rcat r (rcat (lit sep) (rjoin sep rs))

@[simp]
theorem rjoin_nil (sep : String) : rjoin sep [] = .ok "" := rfl

@[simp]
theorem rjoin_singleton (sep : String) (r : RenderResult) :
    rjoin sep [r] = r := rfl

theorem rjoin_cons_cons (sep : String) (r r2 : RenderResult)
    (rs : List RenderResult) :
    rjoin sep (r :: r2 :: rs) = rcat r (rcat (lit sep) (rjoin sep (r2 :: rs))) := rfl


/-- Appending the empty rendering on the right is the identity. -/
theorem rcat_nil_right (r : RenderResult) : rcat r (.ok "") = r := by
  cases r with
  | error e => rfl
  | ok a => simp [rcat]

/-- Appending the empty rendering on the left is the identity. -/
theorem rcat_nil_left (r : RenderResult) : rcat (.ok "") r = r := by
  cases r with
  | error e => rfl
  | ok a => simp [rcat]

/-- Render sequencing is associative. -/
theorem rcat_assoc (a b c : RenderResult) :
    rcat (rcat a b) c = rcat a (rcat b c) := by
  cases a with
  | error e => rfl
  | ok x =>
    cases b with
    | error e => rfl
    | ok y =>
      cases c with
      | error e => rfl
      | ok z => simp [rcat, String.append_assoc]

/-- The spine of a linkBottom step is the concatenation of the two
spines. -/
theorem ConstructTriples.spine_linkBottom :
    ∀ a b : ConstructTriples,
      (ConstructTriples.linkBottom a b).spine = a.spine ++ b.spine
  | .mk t none, b => by
    simp [ConstructTriples.linkBottom, ConstructTriples.spine]
  | .mk t (some rest), b => by
    simp [ConstructTriples.linkBottom, ConstructTriples.spine]
    exact ConstructTriples.spine_linkBottom rest b

/-- Every ConstructTriples chain has a non-empty spine. -/
theorem ConstructTriples.spine_ne_nil :
    ∀ c : ConstructTriples, c.spine ≠ []
  | .mk t none => by simp [ConstructTriples.spine]
  | .mk t (some rest) => by simp [ConstructTriples.spine]

/-- Spine of a left fold of linkBottom steps: the first chain's spine
followed by every later chain's spine. -/
theorem ConstructTriples.spine_foldl (cs : List ConstructTriples) :
    ∀ c : ConstructTriples,
      (cs.foldl ConstructTriples.linkBottom c).spine =
        c.spine ++ cs.flatMap ConstructTriples.spine := by
  induction cs with
  | nil => intro c; simp
  | cons x xs ih =>
    intro c
    simp only [List.foldl_cons, List.flatMap_cons]
    rw [ih (ConstructTriples.linkBottom c x), ConstructTriples.spine_linkBottom,
      List.append_assoc]

/-- The comma-joined rendering of a non-empty ObjectList. -/
theorem ObjectList_render_cons (o : Object) (os : List Object) :
    ObjectList.render (.mk (o :: os)) =
      rjoin "," ((o :: os).map Object.render) := by
  induction os generalizing o with
  | nil =>
    simp [ObjectList.render, ObjectList.renderRest, rcat_nil_right]
  | cons o2 rest ih =>
    have h2 := ih o2
    simp only [ObjectList.render, List.map_cons] at h2 ⊢
    rw [rjoin_cons_cons]
    simp only [ObjectList.renderRest]
    rw [h2]

/-- The semicolon-joined rendering of a non-empty PropertyListNotEmpty,
each pair rendered as the verb, a space and the object list. -/
theorem PropertyListNotEmpty_render_cons (vo : Verb × ObjectList)
    (vos : List (Verb × ObjectList)) :
    PropertyListNotEmpty.render (.mk (vo :: vos)) =
      rjoin ";"
        ((vo :: vos).map (fun p => rcat p.1.render (rcat (lit " ") p.2.render))) := by
  induction vos generalizing vo with
  | nil =>
    simp [PropertyListNotEmpty.render, PropertyListNotEmpty.renderRest,
      rcat_nil_right, rcat_assoc]
  | cons vo2 rest ih =>
    have h2 := ih vo2
    simp only [PropertyListNotEmpty.render, List.map_cons] at h2 ⊢
    rw [rjoin_cons_cons]
    simp only [PropertyListNotEmpty.renderRest]
    rw [h2]
    simp only [rcat_assoc]

/-- The UNION-joined rendering of the tail of a GroupOrUnionGraphPattern. -/
theorem GroupOrUnionGraphPattern_renderRest_cons (g : GroupGraphPattern)
    (gs : List GroupGraphPattern) :
    GroupOrUnionGraphPattern.renderRest (g :: gs) =
      rcat (lit "\nUNION\n")
        (rjoin "\nUNION\n" ((g :: gs).map GroupGraphPattern.render)) := by
  induction gs generalizing g with
  | nil =>
    simp [GroupOrUnionGraphPattern.renderRest, rcat_nil_right]
  | cons g2 rest ih =>
    have h2 := ih g2
    simp only [GroupOrUnionGraphPattern.renderRest] at h2 ⊢
    simp only [List.map_cons] at h2 ⊢
    rw [rjoin_cons_cons, h2, ← rcat_assoc, ← rcat_assoc]

/-- Wrapping a primary expression through the singleton chain of
`Expression.from_primary_expression` renders exactly the primary
expression. -/
theorem from_primary_expression_render (p : PrimaryExpression) :
    Expression.render (Expression.from_primary_expression p) =
      PrimaryExpression.render p := by
  simp [Expression.from_primary_expression, Expression.render,
    ConditionalOrExpression.render, ConditionalOrExpression.renderList,
    ConditionalAndExpression.render, ConditionalAndExpression.renderList,
    ValueLogical.render, RelationalExpression.render, NumericExpression.render,
    AdditiveExpression.render, AdditiveExpression.renderAdds,
    MultiplicativeExpression.render, MultiplicativeExpression.renderAdds,
    UnaryExpression.render, rcat_nil_left, rcat_nil_right]

/-- C1: the spec says render and collect_triples are total over
validly-constructed trees; on the code, rendering any terminal whose
class does not override the base render (PNAME_NS, PNAME_LN, INTEGER)
raises TypeError because the base body is `raise self.value` with a
string value, and rendering any GraphPatternNotTriples node raises
NotImplementedError because the intended render override sits at module
level instead of inside the class. -/
theorem claim_C1 :
    PNAME_NS.render ⟨"ex"⟩ =
      .error (.typeError "exceptions must derive from BaseException") ∧
    PNAME_LN.render ⟨"ex:a"⟩ =
      .error (.typeError "exceptions must derive from BaseException") ∧
    INTEGER.render ⟨"42"⟩ =
      .error (.typeError "exceptions must derive from BaseException") ∧
    GraphPatternNotTriples.render exampleGPNT = .error .notImplementedError :=
  ⟨rfl, rfl, rfl, rfl⟩

/-- C2: construction of the interleaved paired structures.  With a list
supplied for the secondary field, zero primary elements fail with the
structural ValueError, N greater than one primary elements with fewer
than N-1 secondary elements fail with the structural ValueError, and one
primary element with an empty secondary list succeeds; but with the
secondary field left at its None default, construction of one primary
element raises TypeError from `len(None)` instead of succeeding, which
contradicts the claim's None branch. -/
theorem claim_C2 :
    (∀ qnts : List QuadsNotTriples,
      Quads.construct [] (some qnts) =
        .error (.valueError "There must be at least one TriplesTemplate")) ∧
    (∀ (tts : List TriplesTemplate) (qnts : List QuadsNotTriples),
      1 < tts.length → qnts.length < tts.length - 1 →
      Quads.construct tts (some qnts) =
        .error (.valueError
          "When there is more than one TriplesTemplate there must be at least N-1 QuadsNotTriples")) ∧
    (∀ t : TriplesTemplate,
      Quads.construct [t] (some []) = .ok ⟨[t], some []⟩) ∧
    (∀ t : TriplesTemplate,
      Quads.construct [t] none =
        .error (.typeError "object of type NoneType has no len")) ∧
    (∀ gpnts : List GraphPatternNotTriples,
      GroupGraphPatternSub.construct [] (some gpnts) =
        .error (.valueError "There must be at least one TriplesBlock")) ∧
    (∀ (tbs : List TriplesBlock) (gpnts : List GraphPatternNotTriples),
      1 < tbs.length → gpnts.length < tbs.length - 1 →
      GroupGraphPatternSub.construct tbs (some gpnts) =
        .error (.valueError
          "When there is more than one TriplesBlock there must be at least N-1 GraphPatternNotTriples")) ∧
    (∀ tb : TriplesBlock,
      GroupGraphPatternSub.construct [tb] (some []) =
        .ok (GroupGraphPatternSub.mk [tb] (some []))) ∧
    (∀ tb : TriplesBlock,
      GroupGraphPatternSub.construct [tb] none =
        .error (.typeError "object of type NoneType has no len")) := by
  refine ⟨?_, ?_, ?_, ?_, ?_, ?_, ?_, ?_⟩
  · intro qnts
    simp [Quads.construct, Quads.validate_templates_and_quads, pyLen]
  · intro tts qnts h1 h2
    simp only [Quads.construct, Quads.validate_templates_and_quads, pyLen]
    rw [if_neg (by omega), if_pos (by omega)]
  · intro t; rfl
  · intro t; rfl
  · intro gpnts
    simp [GroupGraphPatternSub.construct,
      GroupGraphPatternSub.validate_blocks_and_patterns, pyLen]
  · intro tbs gpnts h1 h2
    simp only [GroupGraphPatternSub.construct,
      GroupGraphPatternSub.validate_blocks_and_patterns, pyLen]
    rw [if_neg (by omega), if_pos (by omega)]
  · intro tb; rfl
  · intro tb; rfl

/-- Witness for C2 at concrete inputs: two templates with an empty
secondary list fail with the structural error; one template with an
empty list succeeds; one template with the None default raises
TypeError. -/
theorem claim_C2_witness :
    Quads.construct [exampleTT, exampleTT] (some []) =
      .error (.valueError
        "When there is more than one TriplesTemplate there must be at least N-1 QuadsNotTriples") ∧
    Quads.construct [exampleTT] (some []) = .ok ⟨[exampleTT], some []⟩ ∧
    Quads.construct [exampleTT] none =
      .error (.typeError "object of type NoneType has no len") ∧
    GroupGraphPatternSub.construct [exampleTB, exampleTB] (some []) =
      .error (.valueError
        "When there is more than one TriplesBlock there must be at least N-1 GraphPatternNotTriples") :=
  ⟨claim_C2.2.1 [exampleTT, exampleTT] [] (by simp) (by simp),
    claim_C2.2.2.1 exampleTT,
    claim_C2.2.2.2.1 exampleTT,
    claim_C2.2.2.2.2.2.1 [exampleTB, exampleTB] [] (by simp) (by simp)⟩

/-- C3: a GroupGraphPattern whose GroupGraphPatternSub holds the triple
pattern `?s ?p ?o` directly in a TriplesBlock and again nested inside an
OPTIONAL graph pattern is validly constructed, yet collect_triples
returns the empty list — not a singleton — because GroupGraphPatternSub
subclasses plain BaseModel, so the reflective traversal never recurses
into it. -/
theorem claim_C3 :
    GroupGraphPatternSub.construct [exampleTB] (some []) =
      .ok (GroupGraphPatternSub.mk [exampleTB] (some [])) ∧
    GroupGraphPatternSub.construct [exampleTB]
        (some [GraphPatternNotTriples.opt (OptionalGraphPattern.mk
          (GroupGraphPattern.ggps (GroupGraphPatternSub.mk [exampleTB] (some []))))]) =
      .ok (GroupGraphPatternSub.mk [exampleTB]
        (some [GraphPatternNotTriples.opt (OptionalGraphPattern.mk
          (GroupGraphPattern.ggps (GroupGraphPatternSub.mk [exampleTB] (some []))))])) ∧
    GroupGraphPattern.collect_triples
      (GroupGraphPattern.ggps (GroupGraphPatternSub.mk [exampleTB]
        (some [GraphPatternNotTriples.opt (OptionalGraphPattern.mk
          (GroupGraphPattern.ggps (GroupGraphPatternSub.mk [exampleTB] (some []))))]))) =
      [] := by
  refine ⟨rfl, rfl, ?_⟩
  simp [GroupGraphPattern.collect_triples, pydedup]

/-- C4: a non-empty ObjectList renders as the objects joined by single
commas with no leading or trailing comma, and a non-empty
PropertyListNotEmpty renders as the `verb objectlist` pairs (space
separated) joined by single semicolons with no leading or trailing
semicolon. -/
theorem claim_C4 :
    (∀ objs : List Object, objs ≠ [] →
      ObjectList.render (.mk objs) = rjoin "," (objs.map Object.render)) ∧
    (∀ vos : List (Verb × ObjectList), vos ≠ [] →
      PropertyListNotEmpty.render (.mk vos) =
        rjoin ";"
          (vos.map (fun p => rcat p.1.render (rcat (lit " ") p.2.render)))) := by
  constructor
  · intro objs h
    obtain ⟨o, os, rfl⟩ := List.exists_cons_of_ne_nil h
    exact ObjectList_render_cons o os
  · intro vos h
    obtain ⟨vo, rest, rfl⟩ := List.exists_cons_of_ne_nil h
    exact PropertyListNotEmpty_render_cons vo rest

/-- Witness for C4 at concrete inputs with two objects and two pairs. -/
theorem claim_C4_witness :
    ObjectList.render (.mk [Object.mk (GraphNode.vot ⟨.inl exampleVar⟩),
        Object.mk (GraphNode.vot ⟨.inl exampleVar⟩)]) =
      rjoin ","
        ([Object.mk (GraphNode.vot ⟨.inl exampleVar⟩),
          Object.mk (GraphNode.vot ⟨.inl exampleVar⟩)].map Object.render) ∧
    PropertyListNotEmpty.render (.mk [(Verb.mk (.inr .A), ObjectList.mk
        [Object.mk (GraphNode.vot ⟨.inl exampleVar⟩)])]) =
      rjoin ";"
        ([(Verb.mk (.inr .A), ObjectList.mk
          [Object.mk (GraphNode.vot ⟨.inl exampleVar⟩)])].map
            (fun p => rcat p.1.render (rcat (lit " ") p.2.render))) :=
  ⟨claim_C4.1 _ (by simp), claim_C4.2 _ (by simp)⟩

/-- C5: the spec says a negated property set with several alternatives
renders them all inside one parenthesised group separated by vertical
bars; the code instead renders the first alternative outside the
parentheses with no separator before the group, so `!(a|b)`-style output
is never produced: the two-alternative set renders as
`<http://a>(<http://b>)` instead of `(<http://a>|<http://b>)` (the
single-alternative cases do render without parentheses as claimed). -/
theorem claim_C5 :
    PathNegatedPropertySet.render
      (PathNegatedPropertySet.mk
        (PathOneInPropertySet.mk (.inl ⟨.inl ⟨"http://a"⟩⟩) false)
        (some [PathOneInPropertySet.mk (.inl ⟨.inl ⟨"http://b"⟩⟩) false])) =
      .ok "<http://a>(<http://b>)" ∧
    PathNegatedPropertySet.render
      (PathNegatedPropertySet.mk
        (PathOneInPropertySet.mk (.inl ⟨.inl ⟨"http://a"⟩⟩) false) none) =
      .ok "<http://a>" ∧
    PathNegatedPropertySet.render
      (PathNegatedPropertySet.mk
        (PathOneInPropertySet.mk (.inl ⟨.inl ⟨"http://a"⟩⟩) false) (some [])) =
      .ok "<http://a>" ∧
    "<http://a>(<http://b>)" ≠ "(<http://a>|<http://b>)" := by
  refine ⟨?_, ?_, ?_, by decide⟩
  all_goals
    simp [PathNegatedPropertySet.render, PathNegatedPropertySet.renderRest,
      PathOneInPropertySet.render, iri.render, IRIREF.render, rcats, rcat,
      lit, rcat_nil_left, rcat_nil_right]

/-- C6: the relational-filter helper with operator IN and a two-element
comparator list builds a filter that renders exactly
`FILTER (s IN (a, b))` where s, a and b are the renderings of the
operands; and with a single non-list comparator and operator IN or
NOT IN it fails with the explicit AssertionError naming the required
operand shape instead of rendering anything. -/
theorem claim_C6 :
    (∀ (focus a b : PrimaryExpression) (s sa sb : String),
      PrimaryExpression.render focus = .ok s →
      PrimaryExpression.render a = .ok sa →
      PrimaryExpression.render b = .ok sb →
      ∃ flt, Filter.filter_relational focus (.inr [a, b]) "IN" = .ok flt ∧
        Filter.render flt =
          .ok ("FILTER (" ++ s ++ " IN (" ++ sa ++ ", " ++ sb ++ "))")) ∧
    (∀ (focus c : PrimaryExpression),
      Filter.filter_relational focus (.inl c) "IN" =
        .error (.assertionError
          "an ExpressionList must be supplied for \x27IN\x27 or \x27NOT IN\x27") ∧
      Filter.filter_relational focus (.inl c) "NOT IN" =
        .error (.assertionError
          "an ExpressionList must be supplied for \x27IN\x27 or \x27NOT IN\x27")) := by
  constructor
  · intro focus a b s sa sb hf ha hb
    refine ⟨_, rfl, ?_⟩
    simp [Filter.render, Constraint.render, BrackettedExpression.render,
      Expression.render, ConditionalOrExpression.render,
      ConditionalOrExpression.renderList, ConditionalAndExpression.render,
      ConditionalAndExpression.renderList, ValueLogical.render,
      RelationalExpression.render, NumericExpression.render,
      AdditiveExpression.render, AdditiveExpression.renderAdds,
      MultiplicativeExpression.render, MultiplicativeExpression.renderAdds,
      UnaryExpression.render, ExpressionList.render, ExpressionList.renderExprs,
      from_primary_expression_render, hf, ha, hb,
      rcat_nil_left, rcat_nil_right, rcat, lit, String.append_assoc]
    rw [(by decide : ("FILTER (" : String) = "FILTER " ++ "("),
      (by decide : (" IN (" : String) = " IN " ++ "(")]
    simp only [String.append_assoc]
  · intro focus c
    exact ⟨rfl, rfl⟩

/-- Witness for C6 at concrete variable operands `?f`, `?a`, `?b`. -/
theorem claim_C6_witness :
    PrimaryExpression.render (.varC ⟨.inl ⟨"f"⟩⟩) = .ok "?f" ∧
    (∃ flt,
      Filter.filter_relational (.varC ⟨.inl ⟨"f"⟩⟩)
          (.inr [.varC ⟨.inl ⟨"a"⟩⟩, .varC ⟨.inl ⟨"b"⟩⟩]) "IN" = .ok flt ∧
      Filter.render flt =
        .ok ("FILTER (" ++ "?f" ++ " IN (" ++ "?a" ++ ", " ++ "?b" ++ "))")) := by
  have hf : PrimaryExpression.render (.varC ⟨.inl ⟨"f"⟩⟩) = .ok "?f" := by
    simp [PrimaryExpression.render, Var.render, VAR1.render, rcats, rcat, lit]
  have ha : PrimaryExpression.render (.varC ⟨.inl ⟨"a"⟩⟩) = .ok "?a" := by
    simp [PrimaryExpression.render, Var.render, VAR1.render, rcats, rcat, lit]
  have hb : PrimaryExpression.render (.varC ⟨.inl ⟨"b"⟩⟩) = .ok "?b" := by
    simp [PrimaryExpression.render, Var.render, VAR1.render, rcats, rcat, lit]
  exact ⟨hf, claim_C6.1 _ _ _ _ _ _ hf ha hb⟩

/-- C7: the from_spo helper of TriplesSameSubjectPath produces, for
every supported subject, predicate and object, a tree whose rendering is
byte-identical to that of the tree assembled by hand from the same
nested constructors. -/
theorem claim_C7 (s : Sum Var (Sum iri BlankNode)) (p : Sum Var iri)
    (o : Sum Var (Sum iri BlankNode)) :
    (TriplesSameSubjectPath.from_spo s p o).render =
      (TriplesSameSubjectPath.handAssembled s p o).render := by
  rcases s with v | i | bn <;> rcases p with pv | pi <;>
    rcases o with ov | oi | obn <;> rfl

/-- C8: a GroupOrUnionGraphPattern over n patterns renders as a leading
newline followed by the pattern renderings joined by single UNION
separators: exactly n-1 UNION tokens, each strictly between two
successive pattern renderings, never leading or trailing. -/
theorem claim_C8 (g : GroupGraphPattern) (gs : List GroupGraphPattern) :
    GroupOrUnionGraphPattern.render (.mk (g :: gs)) =
      rcat (lit "\n")
        (rjoin "\nUNION\n" ((g :: gs).map GroupGraphPattern.render)) := by
  cases gs with
  | nil =>
    simp [GroupOrUnionGraphPattern.render, GroupOrUnionGraphPattern.renderRest,
      rcat_nil_right]
  | cons g2 rest =>
    simp only [GroupOrUnionGraphPattern.render, List.map_cons]
    rw [GroupOrUnionGraphPattern_renderRest_cons, rjoin_cons_cons]
    simp only [List.map_cons, ← rcat_assoc]

/-- C9 counterexample: merging two single-node ConstructTriples chains
leaves the first input object holding the merged two-node chain, which
is not structurally equal to the single-node chain that was passed in —
the claim that merge_ct never relinks an existing node in place is
false. -/
theorem claim_C9_counterexample :
    ConstructTriples.merge_ct_inputStateAfter
        [ConstructTriples.mk exampleTSS none, ConstructTriples.mk exampleTSS none] 0 =
      some (ConstructTriples.mk exampleTSS
        (some (ConstructTriples.mk exampleTSS none))) ∧
    ConstructTriples.mk exampleTSS (some (ConstructTriples.mk exampleTSS none)) ≠
      ConstructTriples.mk exampleTSS none := by
  constructor
  · simp [ConstructTriples.merge_ct_inputStateAfter, ConstructTriples.merge_ct,
      ConstructTriples.linkBottom]
  · simp

/-- C9 as amended: merge_ct merges by relinking tails in place, not by
building a new parent node.  For a non-empty input list the result is
the first input with every later chain linked below it; the object
passed first is left in exactly that merged state, its spine the
concatenation of all the inputs' spines, so whenever at least two inputs
are given the first input object is structurally changed.  (All other
operations of the module build new values and leave their inputs
untouched.) -/
theorem claim_C9 (c : ConstructTriples) (cs : List ConstructTriples) :
    ConstructTriples.merge_ct (c :: cs) =
      some (cs.foldl ConstructTriples.linkBottom c) ∧
    ConstructTriples.merge_ct_inputStateAfter (c :: cs) 0 =
      ConstructTriples.merge_ct (c :: cs) ∧
    (cs.foldl ConstructTriples.linkBottom c).spine =
      c.spine ++ cs.flatMap ConstructTriples.spine ∧
    (cs ≠ [] →
      ConstructTriples.merge_ct_inputStateAfter (c :: cs) 0 ≠ some c) := by
  refine ⟨rfl, rfl, ConstructTriples.spine_foldl cs c, ?_⟩
  intro hne heq
  have hval : cs.foldl ConstructTriples.linkBottom c = c := by
    simpa [ConstructTriples.merge_ct_inputStateAfter,
      ConstructTriples.merge_ct] using heq
  have hspine := ConstructTriples.spine_foldl cs c
  rw [hval] at hspine
  have hnil : cs.flatMap ConstructTriples.spine = [] := by
    have hlen := congrArg List.length hspine
    simp only [List.length_append] at hlen
    exact List.length_eq_zero.mp (by omega)
  obtain ⟨x, xs, rfl⟩ := List.exists_cons_of_ne_nil hne
  rw [List.flatMap_cons] at hnil
  exact ConstructTriples.spine_ne_nil x (List.append_eq_nil.mp hnil).1

/-- Witness for C9 at a concrete two-chain input. -/
theorem claim_C9_witness :
    ConstructTriples.merge_ct
        [ConstructTriples.mk exampleTSS none, ConstructTriples.mk exampleTSS none] =
      some ([ConstructTriples.mk exampleTSS none].foldl
        ConstructTriples.linkBottom (ConstructTriples.mk exampleTSS none)) ∧
    ConstructTriples.merge_ct_inputStateAfter
        [ConstructTriples.mk exampleTSS none, ConstructTriples.mk exampleTSS none] 0 ≠
      some (ConstructTriples.mk exampleTSS none) := by
  have h := claim_C9 (ConstructTriples.mk exampleTSS none)
    [ConstructTriples.mk exampleTSS none]
  exact ⟨h.1, h.2.2.2 (by simp)⟩

/-- C10: no Aggregate with an explicitly supplied separator, and no
Aggregate whose expression is the wildcard, is ever constructible — for
every function name, GROUP_CONCAT and COUNT included — because the two
field validators compare the class-level `function_name` attribute
(which does not exist on the class) instead of the instance value, so
the guard fails for every instance. -/
theorem claim_C10 :
    (∀ (fn : AggregateOptions) (d : Option Bool) (e : Expression) (s : String),
      Aggregate.construct fn d (.inl e) (some s) =
        .error (.attributeError "function_name")) ∧
    (∀ (fn : AggregateOptions) (d : Option Bool) (sep : Option String),
      Aggregate.construct fn d (.inr .WILDCARD) sep =
        .error (.attributeError "function_name")) := by
  constructor
  · intro fn d e s; rfl
  · intro fn d sep; rfl

end SG
